import Mathlib

/-!
Verification development for the wikibase-backend versioned entity store.
The definitions below are a shallow embedding of the write path
(src/models/entity_api/main.py, src/models/infrastructure/vitess_client.py,
src/models/infrastructure/s3_client.py, src/services/entity_api/redirects.py)
and of the RDF Turtle serialisation subsystem (src/models/rdf_builder).
Stateful code is embedded as explicit state passing over a `Store` value whose
tables mirror the Vitess schema and the S3 bucket; fallible calls return
`Option` or `Except`.
-/

namespace WB

/-- JSON values, as they appear in request documents and revision blobs
(Python dicts parsed from / dumped to JSON). Object fields keep insertion
order, as Python dicts do. -/
inductive Json where
  | null : Json
  | bool (b : Bool) : Json
  | num (n : Int) : Json
  | str (s : String) : Json
  | arr (items : List Json) : Json
  | obj (fields : List (String × Json)) : Json

mutual

/-- Decidable equality for `Json` (the derive handler does not support the
nested occurrence under `List`, so the instance is written out). -/
def Json.decEq : (a b : Json) → Decidable (a = b)
  | .null, .null => .isTrue rfl
  | .bool x, .bool y =>
      if h : x = y then .isTrue (h ▸ rfl) else .isFalse (fun hh => h (by injection hh))
  | .num x, .num y =>
      if h : x = y then .isTrue (h ▸ rfl) else .isFalse (fun hh => h (by injection hh))
  | .str x, .str y =>
      if h : x = y then .isTrue (h ▸ rfl) else .isFalse (fun hh => h (by injection hh))
  | .arr xs, .arr ys =>
      match Json.decEqItems xs ys with
      | .isTrue h => .isTrue (h ▸ rfl)
      | .isFalse h => .isFalse (fun hh => h (by injection hh))
  | .obj xs, .obj ys =>
      match Json.decEqFields xs ys with
      | .isTrue h => .isTrue (h ▸ rfl)
      | .isFalse h => .isFalse (fun hh => h (by injection hh))
  | .null, .bool _ => .isFalse (fun h => Json.noConfusion h)
  | .null, .num _ => .isFalse (fun h => Json.noConfusion h)
  | .null, .str _ => .isFalse (fun h => Json.noConfusion h)
  | .null, .arr _ => .isFalse (fun h => Json.noConfusion h)
  | .null, .obj _ => .isFalse (fun h => Json.noConfusion h)
  | .bool _, .null => .isFalse (fun h => Json.noConfusion h)
  | .bool _, .num _ => .isFalse (fun h => Json.noConfusion h)
  | .bool _, .str _ => .isFalse (fun h => Json.noConfusion h)
  | .bool _, .arr _ => .isFalse (fun h => Json.noConfusion h)
  | .bool _, .obj _ => .isFalse (fun h => Json.noConfusion h)
  | .num _, .null => .isFalse (fun h => Json.noConfusion h)
  | .num _, .bool _ => .isFalse (fun h => Json.noConfusion h)
  | .num _, .str _ => .isFalse (fun h => Json.noConfusion h)
  | .num _, .arr _ => .isFalse (fun h => Json.noConfusion h)
  | .num _, .obj _ => .isFalse (fun h => Json.noConfusion h)
  | .str _, .null => .isFalse (fun h => Json.noConfusion h)
  | .str _, .bool _ => .isFalse (fun h => Json.noConfusion h)
  | .str _, .num _ => .isFalse (fun h => Json.noConfusion h)
  | .str _, .arr _ => .isFalse (fun h => Json.noConfusion h)
  | .str _, .obj _ => .isFalse (fun h => Json.noConfusion h)
  | .arr _, .null => .isFalse (fun h => Json.noConfusion h)
  | .arr _, .bool _ => .isFalse (fun h => Json.noConfusion h)
  | .arr _, .num _ => .isFalse (fun h => Json.noConfusion h)
  | .arr _, .str _ => .isFalse (fun h => Json.noConfusion h)
  | .arr _, .obj _ => .isFalse (fun h => Json.noConfusion h)
  | .obj _, .null => .isFalse (fun h => Json.noConfusion h)
  | .obj _, .bool _ => .isFalse (fun h => Json.noConfusion h)
  | .obj _, .num _ => .isFalse (fun h => Json.noConfusion h)
  | .obj _, .str _ => .isFalse (fun h => Json.noConfusion h)
  | .obj _, .arr _ => .isFalse (fun h => Json.noConfusion h)

def Json.decEqItems : (a b : List Json) → Decidable (a = b)
  | [], [] => .isTrue rfl
  | [], _ :: _ => .isFalse (fun h => List.noConfusion h)
  | _ :: _, [] => .isFalse (fun h => List.noConfusion h)
  | x :: xs, y :: ys =>
      match Json.decEq x y with
      | .isFalse h => .isFalse (fun hh => h (by injection hh))
      | .isTrue h1 =>
          match Json.decEqItems xs ys with
          | .isTrue h2 => .isTrue (by rw [h1, h2])
          | .isFalse h2 => .isFalse (fun hh => h2 (by injection hh))

def Json.decEqFields : (a b : List (String × Json)) → Decidable (a = b)
  | [], [] => .isTrue rfl
  | [], _ :: _ => .isFalse (fun h => List.noConfusion h)
  | _ :: _, [] => .isFalse (fun h => List.noConfusion h)
  | (k1, v1) :: xs, (k2, v2) :: ys =>
      if hk : k1 = k2 then
        match Json.decEq v1 v2 with
        | .isFalse h =>
            .isFalse (fun hh => by
              injection hh with h1 h2
              exact h (congrArg Prod.snd h1))
        | .isTrue h1 =>
            match Json.decEqFields xs ys with
            | .isTrue h2 => .isTrue (by rw [hk, h1, h2])
            | .isFalse h2 => .isFalse (fun hh => h2 (by injection hh))
      else
        .isFalse (fun hh => by
          injection hh with h1 h2
          exact hk (congrArg Prod.fst h1))

end

instance : DecidableEq Json := Json.decEq

/-- Python dict lookup `d.get(k)` on a JSON object (None when absent or when
the value is not an object). -/
def Json.get (j : Json) (key : String) : Option Json :=
  match j with
  | .obj fields => go fields
  | _ => none
where
  go : List (String × Json) → Option Json
    | [] => none
    | (k, v) :: rest => if k = key then some v else go rest

/-- String-typed field access: `d.get(k)` when the stored value is a string. -/
def Json.getStr (j : Json) (key : String) : Option String :=
  match j.get key with
  | some (.str s) => some s
  | _ => none

/-- Python truthiness of a JSON value (`bool(x)` for parsed JSON). -/
def Json.truthy : Json → Bool
  | .null => false
  | .bool b => b
  | .num n => n ≠ 0
  | .str s => s ≠ ""
  | .arr items => !items.isEmpty
  | .obj fields => !fields.isEmpty

/-- Python truthiness of `d.get(k)` (None is falsy). -/
def truthyOpt : Option Json → Bool
  | none => false
  | some j => j.truthy

/-- Insert a key into an association list sorted by key (helper for the
recursive key sort of `json.dumps(..., sort_keys=True)`). -/
def insertSortedField (p : String × Json) : List (String × Json) → List (String × Json)
  | [] => [p]
  | q :: rest => if p.1 ≤ q.1 then p :: q :: rest else q :: insertSortedField p rest

/-- Sort JSON object fields by key (insertion sort). -/
def sortFields (fields : List (String × Json)) : List (String × Json) :=
  fields.foldr insertSortedField []

mutual

/-- Recursively sort all object keys, mirroring the effect of
`json.dumps(data, sort_keys=True)` on the structure that gets serialised. -/
def Json.canonicalize : Json → Json
  | .obj fields => .obj (sortFields (canonicalizeFields fields))
  | .arr items => .arr (canonicalizeItems items)
  | .null => .null
  | .bool b => .bool b
  | .num n => .num n
  | .str s => .str s

def canonicalizeItems : List Json → List Json
  | [] => []
  | j :: rest => j.canonicalize :: canonicalizeItems rest

def canonicalizeFields : List (String × Json) → List (String × Json)
  | [] => []
  | (k, v) :: rest => (k, v.canonicalize) :: canonicalizeFields rest

end

mutual

/-- Serialise a JSON value the way `json.dumps` does (default separators). -/
def Json.dumps : Json → String
  | .null => "null"
  | .bool true => "true"
  | .bool false => "false"
  | .num n => toString n
  | .str s => "\"" ++ s ++ "\""
  | .arr items => "[" ++ dumpsItems items ++ "]"
  | .obj fields => "\x7b" ++ dumpsFields fields ++ "\x7d"

def dumpsItems : List Json → String
  | [] => ""
  | [j] => j.dumps
  | j :: rest => j.dumps ++ ", " ++ dumpsItems rest

def dumpsFields : List (String × Json) → String
  | [] => ""
  | [(k, v)] => "\"" ++ k ++ "\": " ++ v.dumps
  | (k, v) :: rest => "\"" ++ k ++ "\": " ++ v.dumps ++ ", " ++ dumpsFields rest

end

/-- The canonical JSON text of a document: recursive key sort, then dump.
This is `json.dumps(request.data, sort_keys=True)` in `create_entity`. -/
def canonical_json (j : Json) : String :=
  j.canonicalize.dumps

/-- Association list lookup with decidable key equality (keyed tables and the
S3 bucket are embedded as association lists). -/
def alist_get {α β : Type} [DecidableEq α] : List (α × β) → α → Option β
  | [], _ => none
  | (k, v) :: rest, key => if k = key then some v else alist_get rest key

/-- Association list insert-or-replace (dict/row upsert semantics). -/
def alist_put {α β : Type} [DecidableEq α] : List (α × β) → α → β → List (α × β)
  | [], key, val => [(key, val)]
  | (k, v) :: rest, key, val =>
      if k = key then (key, val) :: rest else (k, v) :: alist_put rest key val

/-- One row of the `entity_head` table (vitess_client._create_tables). -/
structure HeadRow where
  head_revision_id : Nat
  is_semi_protected : Bool
  is_locked : Bool
  is_archived : Bool
  is_dangling : Bool
  is_mass_edit_protected : Bool
  is_deleted : Bool
  is_redirect : Bool
  redirects_to : Option Nat
deriving DecidableEq

/-- The metadata columns of one `entity_revisions` row (the key
`(entity_id, revision_id)` is kept outside, in the association list). -/
structure RevisionRow where
  is_mass_edit : Bool
  edit_type : String
deriving DecidableEq

/-- One S3 object: the JSON body plus the `publication_state` metadata tag. -/
structure Blob where
  data : Json
  publication_state : String
deriving DecidableEq

/-- One row of the `entity_redirects` table. -/
structure RedirectEdge where
  redirect_from_id : Nat
  redirect_to_id : Nat
  created_by : String
deriving DecidableEq

/-- The combined durable state: the four Vitess tables plus the S3 bucket.
`blobs` is keyed by `(entity_id, revision_id)`, matching the object key
`"<entity_id>/r<revision_id>.json"`. -/
structure Store where
  id_mapping : List (String × Nat)
  entity_head : List (Nat × HeadRow)
  entity_revisions : List ((Nat × Nat) × RevisionRow)
  entity_redirects : List RedirectEdge
  blobs : List ((String × Nat) × Blob)
deriving DecidableEq

/-- The empty deployment (all tables and the bucket empty). -/
def Store.empty : Store :=
  { id_mapping := [], entity_head := [], entity_revisions := [],
    entity_redirects := [], blobs := [] }

/-- Lookup of the external → internal id mapping. `VitessClient._resolve_id`
returns 0 when the row is absent; the callers that treat the result as
optional see that as "missing", embedded here as `none`. -/
def resolve_id (st : Store) (entity_id : String) : Option Nat :=
  alist_get st.id_mapping entity_id

/-- Insert a new id mapping row (`VitessClient.register_entity`). -/
def register_entity (st : Store) (entity_id : String) (internal_id : Nat) : Store :=
  { st with id_mapping := alist_put st.id_mapping entity_id internal_id }

/-- The fresh internal id allocated for a new entity. The source draws a
time-ordered random 64-bit ULID-flake; the embedding allocates the smallest
unused key, which preserves the only property the pipeline relies on. -/
def generate_ulid_flake (st : Store) : Nat :=
  (st.id_mapping.map Prod.snd).foldr max 0 + 1

/-- Head row of an entity, if any. -/
def get_head_row (st : Store) (internal_id : Nat) : Option HeadRow :=
  alist_get st.entity_head internal_id

/-- `VitessClient.get_head`: the current head revision id, or 0 when the
entity has no head row. Note the return type: an integer, never `None`. -/
def get_head (st : Store) (internal_id : Nat) : Nat :=
  match get_head_row st internal_id with
  | some row => row.head_revision_id
  | none => 0

/-- `VitessClient.is_entity_deleted`: the `is_deleted` flag of the head row,
or false when there is no row. -/
def is_entity_deleted (st : Store) (internal_id : Nat) : Bool :=
  match get_head_row st internal_id with
  | some row => row.is_deleted
  | none => false

/-- `VitessClient.is_entity_locked` (flag from the head row, default false). -/
def is_entity_locked (st : Store) (internal_id : Nat) : Bool :=
  match get_head_row st internal_id with
  | some row => row.is_locked
  | none => false

/-- `VitessClient.is_entity_archived` (flag from the head row, default false). -/
def is_entity_archived (st : Store) (internal_id : Nat) : Bool :=
  match get_head_row st internal_id with
  | some row => row.is_archived
  | none => false

/-- `VitessClient.insert_revision`: idempotent insert of revision metadata;
a no-op when the `(entity_id, revision_id)` row already exists. -/
def insert_revision (st : Store) (internal_id revision_id : Nat)
    (is_mass_edit : Bool) (edit_type : String) : Store :=
  if (alist_get st.entity_revisions (internal_id, revision_id)).isSome then st
  else
    let row : RevisionRow := { is_mass_edit := is_mass_edit, edit_type := edit_type }
    { st with entity_revisions := alist_put st.entity_revisions (internal_id, revision_id) row }

/-- `VitessClient.insert_head_with_status`: insert of a fresh head row;
returns false (IntegrityError) when a row for the entity already exists. -/
def insert_head_with_status (st : Store) (entity_id head_revision_id : Nat)
    (is_semi_protected is_locked is_archived is_dangling
     is_mass_edit_protected is_deleted is_redirect : Bool) : Bool × Store :=
  match alist_get st.entity_head entity_id with
  | some _ => (false, st)
  | none =>
      let row : HeadRow :=
        { head_revision_id := head_revision_id,
          is_semi_protected := is_semi_protected, is_locked := is_locked,
          is_archived := is_archived, is_dangling := is_dangling,
          is_mass_edit_protected := is_mass_edit_protected,
          is_deleted := is_deleted, is_redirect := is_redirect,
          redirects_to := none }
      (true, { st with entity_head := alist_put st.entity_head entity_id row })

/-- `VitessClient.cas_update_head_with_status`: the conditional head update
`UPDATE entity_head SET ... WHERE entity_id = %s AND head_revision_id = %s`;
true exactly when a row matched (rowcount > 0). `redirects_to` is not in the
SET list and is preserved. -/
def cas_update_head_with_status (st : Store) (entity_id expected_head new_head : Nat)
    (is_semi_protected is_locked is_archived is_dangling
     is_mass_edit_protected is_deleted is_redirect : Bool) : Bool × Store :=
  match alist_get st.entity_head entity_id with
  | some row =>
      if row.head_revision_id = expected_head then
        let updated : HeadRow :=
          { head_revision_id := new_head,
            is_semi_protected := is_semi_protected, is_locked := is_locked,
            is_archived := is_archived, is_dangling := is_dangling,
            is_mass_edit_protected := is_mass_edit_protected,
            is_deleted := is_deleted, is_redirect := is_redirect,
            redirects_to := row.redirects_to }
        (true, { st with entity_head := alist_put st.entity_head entity_id updated })
      else (false, st)
  | none => (false, st)

/-- `VitessClient.hard_delete_entity`: `UPDATE entity_head SET
is_deleted = TRUE, head_revision_id = %s WHERE entity_id = %s`. -/
def hard_delete_entity (st : Store) (internal_id head_revision_id : Nat) : Store :=
  match alist_get st.entity_head internal_id with
  | some row =>
      let updated : HeadRow := { row with is_deleted := true, head_revision_id := head_revision_id }
      { st with entity_head := alist_put st.entity_head internal_id updated }
  | none => st

/-- `S3Client.write_revision`: create or overwrite the blob at
`(entity_id, revision_id)` with the given publication-state tag. -/
def write_revision (st : Store) (entity_id : String) (revision_id : Nat)
    (data : Json) (publication_state : String) : Store :=
  let blob : Blob := { data := data, publication_state := publication_state }
  { st with blobs := alist_put st.blobs (entity_id, revision_id) blob }

/-- `S3Client.read_revision`: the parsed JSON body of the blob, `none` when
the object is absent (the client raises in that case). -/
def read_revision (st : Store) (entity_id : String) (revision_id : Nat) : Option Json :=
  (alist_get st.blobs (entity_id, revision_id)).map Blob.data

/-- `S3Client.mark_published`: metadata-only rewrite of the publication
state; no-op when the object is absent. -/
def mark_published (st : Store) (entity_id : String) (revision_id : Nat)
    (publication_state : String) : Store :=
  match alist_get st.blobs (entity_id, revision_id) with
  | some blob =>
      let updated : Blob := { blob with publication_state := publication_state }
      { st with blobs := alist_put st.blobs (entity_id, revision_id) updated }
  | none => st

/-- Outcome of an HTTP handler: a successful payload or an
`HTTPException(status_code, detail)`. -/
inductive ApiResult (A : Type) where
  | ok (value : A) : ApiResult A
  | httpError (status : Nat) (detail : String) : ApiResult A
deriving DecidableEq

/-- `EntityCreateRequest` (models/entity.py). `data` is the request document
(`request.data`, the model dump); the typed flag fields mirror its
corresponding keys, with their pydantic defaults applied. -/
structure EntityCreateRequest where
  data : Json
  is_mass_edit : Bool := false
  edit_type : String := ""
  is_semi_protected : Bool := false
  is_locked : Bool := false
  is_archived : Bool := false
  is_dangling : Bool := false
  is_mass_edit_protected : Bool := false
  is_not_autoconfirmed_user : Bool := false
deriving DecidableEq

/-- `EntityResponse` (models/entity.py). -/
structure EntityResponse where
  id : String
  revision_id : Nat
  data : Json
  is_semi_protected : Bool := false
  is_locked : Bool := false
  is_archived : Bool := false
  is_dangling : Bool := false
  is_mass_edit_protected : Bool := false
deriving DecidableEq

/-- `DeleteType` (models/entity.py). -/
inductive DeleteType where
  | soft : DeleteType
  | hard : DeleteType
deriving DecidableEq

/-- `EntityDeleteResponse` (models/entity.py). -/
structure EntityDeleteResponse where
  id : String
  revision_id : Nat
  delete_type : DeleteType
  is_deleted : Bool
deriving DecidableEq

/-- `EntityRedirectRequest` (models/entity.py). -/
structure EntityRedirectRequest where
  redirect_from_id : String
  redirect_to_id : String
  created_by : String := "entity-api"
deriving DecidableEq

/-- `EntityRedirectResponse` (models/entity.py). -/
structure EntityRedirectResponse where
  redirect_from_id : String
  redirect_to_id : String
  created_at : String
  revision_id : Nat
deriving DecidableEq

/-- Observable side-effect calls of the revision pipeline, in program order.
Used to state the ordering guarantees of pipeline steps 8-11. -/
inductive Event where
  | blobWrite (entity_id : String) (revision_id : Nat) (publication_state : String) : Event
  | insertRevision (internal_id revision_id : Nat) : Event
  | insertHead (internal_id revision_id : Nat) : Event
  | casHead (internal_id expected_head new_head : Nat) : Event
  | markPublished (entity_id : String) (revision_id : Nat) : Event
deriving DecidableEq

/-- Modelled from the spec: `settings.s3_revision_schema_version` comes from
a configuration module that is not among the sources; the revision records
written by the redirect service carry schema version "1.1.0", which the model
adopts. The value is never branched on. -/
def s3_revision_schema_version : String := "1.1.0"

/-- The protection checks of `create_entity` (main.py lines 128-148), as the
pure decision they implement: the first matching rule wins, and the result is
the 403 detail string of the matching rule, or `none` for an admitted write.
`current` is the parsed head revision blob. -/
def protection_denial (current : Json) (request : EntityCreateRequest) : Option String :=
  if truthyOpt (current.get "is_archived") then
    some "Item is archived and cannot be edited"
  else if truthyOpt (current.get "is_locked") then
    some "Item is locked from all edits"
  else if truthyOpt (current.get "is_mass_edit_protected") && request.is_mass_edit then
    some "Mass edits blocked on this item"
  else if truthyOpt (current.get "is_semi_protected") && request.is_not_autoconfirmed_user then
    some "Semi-protected items cannot be edited by new or unconfirmed users"
  else
    none

/-- The body of `create_entity` after identity resolution (main.py lines
96-231), for an entity whose internal id is known. `hashFn` stands for the
64-bit `rapidhash` digest; `now` for `datetime.utcnow().isoformat()+"Z"`.
`get_head` returns an integer and never `None` (it yields 0 when the entity
has no head row), so `head_revision_id` is embedded as an always-`some`
option, mirroring the `is None` / truthiness tests of the Python source.
Returns the handler result, the post state, and the trace of side effects. -/
def create_entity_core (hashFn : String → Nat) (now : String) (st : Store)
    (request : EntityCreateRequest) (entity_id : String) (internal_id : Nat) :
    ApiResult EntityResponse × Store × List Event :=
  let head_revision_id : Option Nat := some (get_head st internal_id)
  let entity_json := canonical_json request.data
  let content_hash := hashFn entity_json
  -- Idempotency: if the head blob is readable and stores the same content
  -- hash, return the existing revision; a failed blob read is swallowed.
  let idem : Option EntityResponse :=
    match head_revision_id with
    | some h =>
        match read_revision st entity_id h with
        | some head_revision =>
            if head_revision.get "content_hash" = some (.num content_hash) then
              some { id := entity_id, revision_id := h, data := request.data,
                     is_semi_protected := truthyOpt (head_revision.get "is_semi_protected"),
                     is_locked := truthyOpt (head_revision.get "is_locked"),
                     is_archived := truthyOpt (head_revision.get "is_archived"),
                     is_dangling := truthyOpt (head_revision.get "is_dangling") }
            else none
        | none => none
    | none => none
  match idem with
  | some resp => (.ok resp, st, [])
  | none =>
    -- Protection admission: flags are read from the head revision blob; an
    -- HTTPException is re-raised, any other read error is swallowed.
    let denial : Option String :=
      match head_revision_id with
      | some h =>
          match read_revision st entity_id h with
          | some current => protection_denial current request
          | none => none
      | none => none
    match denial with
    | some reason => (.httpError 403 reason, st, [])
    | none =>
      let new_revision_id :=
        match head_revision_id with
        | some h => if h ≠ 0 then h + 1 else 1
        | none => 1
      let revision_data : Json := .obj
        [("schema_version", .str s3_revision_schema_version),
         ("revision_id", .num (Int.ofNat new_revision_id)),
         ("created_at", .str now),
         ("created_by", .str "entity-api"),
         ("is_mass_edit", .bool request.is_mass_edit),
         ("edit_type", .str request.edit_type),
         ("entity_type", (request.data.get "type").getD (.str "item")),
         ("is_semi_protected", .bool request.is_semi_protected),
         ("is_locked", .bool request.is_locked),
         ("is_archived", .bool request.is_archived),
         ("is_dangling", .bool request.is_dangling),
         ("is_mass_edit_protected", .bool request.is_mass_edit_protected),
         ("is_deleted", .bool false),
         ("is_redirect", .bool false),
         ("entity", request.data),
         ("content_hash", .num (Int.ofNat content_hash))]
      let st1 := write_revision st entity_id new_revision_id revision_data "pending"
      let st2 := insert_revision st1 internal_id new_revision_id
                   request.is_mass_edit request.edit_type
      let published :=
        match head_revision_id with
        | none =>
            (insert_head_with_status st2 internal_id new_revision_id
              request.is_semi_protected request.is_locked request.is_archived
              request.is_dangling request.is_mass_edit_protected false false,
             Event.insertHead internal_id new_revision_id)
        | some h =>
            (cas_update_head_with_status st2 internal_id h new_revision_id
              request.is_semi_protected request.is_locked request.is_archived
              request.is_dangling request.is_mass_edit_protected false false,
             Event.casHead internal_id h new_revision_id)
      let success := published.1.1
      let st3 := published.1.2
      let headEvent := published.2
      let events := [Event.blobWrite entity_id new_revision_id "pending",
                     Event.insertRevision internal_id new_revision_id,
                     headEvent]
      if success then
        let st4 := mark_published st3 entity_id new_revision_id "published"
        let resp : EntityResponse :=
          { id := entity_id, revision_id := new_revision_id, data := request.data,
            is_semi_protected := request.is_semi_protected,
            is_locked := request.is_locked,
            is_archived := request.is_archived,
            is_dangling := request.is_dangling,
            is_mass_edit_protected := request.is_mass_edit_protected }
        (.ok resp, st4, events ++ [Event.markPublished entity_id new_revision_id])
      else
        (.httpError 409 "Concurrent modification detected", st3, events)

/-- `POST /entity` (`create_entity`, main.py lines 72-231): extract the id,
resolve or register it, guard hard deletion, then run the revision pipeline. -/
def create_entity (hashFn : String → Nat) (now : String) (st : Store)
    (request : EntityCreateRequest) :
    ApiResult EntityResponse × Store × List Event :=
  let entity_id := (request.data.getStr "id").getD ""
  if entity_id = "" then
    (.httpError 400 "Entity must have id field", st, [])
  else
    match resolve_id st entity_id with
    | none =>
        let internal_id := generate_ulid_flake st
        let st1 := register_entity st entity_id internal_id
        create_entity_core hashFn now st1 request entity_id internal_id
    | some internal_id =>
        if is_entity_deleted st internal_id then
          (.httpError 410 ("Entity " ++ entity_id ++ " has been deleted"), st, [])
        else
          create_entity_core hashFn now st request entity_id internal_id

/-- `GET /entity/{id}` (`get_entity`, main.py lines 236-273). An unhandled
read failure surfaces as a 500. -/
def get_entity (st : Store) (entity_id : String) : ApiResult EntityResponse :=
  match resolve_id st entity_id with
  | none => .httpError 404 "Entity not found"
  | some internal_id =>
    let head_revision_id : Option Nat := some (get_head st internal_id)
    match head_revision_id with
    | none => .httpError 404 "Entity has no revisions"
    | some h =>
      if is_entity_deleted st internal_id then
        .httpError 410 ("Entity " ++ entity_id ++ " has been deleted")
      else
        match read_revision st entity_id h with
        | none => .httpError 500 "Internal Server Error"
        | some revision =>
          match revision.get "entity" with
          | none => .httpError 500 "Internal Server Error"
          | some entity_data =>
            .ok { id := entity_id, revision_id := h, data := entity_data,
                  is_semi_protected := truthyOpt (revision.get "is_semi_protected"),
                  is_locked := truthyOpt (revision.get "is_locked"),
                  is_archived := truthyOpt (revision.get "is_archived"),
                  is_dangling := truthyOpt (revision.get "is_dangling"),
                  is_mass_edit_protected := truthyOpt (revision.get "is_mass_edit_protected") }

/-- `DELETE /entity/{id}` (`delete_entity`, main.py lines 353-458): write a
deletion revision, then either flip `is_deleted` on the head row (hard) or
advance the head by CAS (soft). Note: the handler performs no `is_deleted`
guard of its own. -/
def delete_entity (now : String) (st : Store) (entity_id : String)
    (delete_type : DeleteType) : ApiResult EntityDeleteResponse × Store :=
  match resolve_id st entity_id with
  | none => (.httpError 404 "Entity not found", st)
  | some internal_id =>
    let head_revision_id : Option Nat := some (get_head st internal_id)
    match head_revision_id with
    | none => (.httpError 404 "Entity has no revisions", st)
    | some h =>
      match read_revision st entity_id h with
      | none => (.httpError 500 "Internal Server Error", st)
      | some current_revision =>
        let new_revision_id := h + 1
        let edit_type :=
          match delete_type with
          | .soft => "soft-delete"
          | .hard => "hard-delete"
        let revision_data : Json := .obj
          [("schema_version", .str s3_revision_schema_version),
           ("revision_id", .num (Int.ofNat new_revision_id)),
           ("created_at", .str now),
           ("created_by", .str "entity-api"),
           ("is_mass_edit", .bool false),
           ("edit_type", .str edit_type),
           ("entity_type", (current_revision.get "entity_type").getD (.str "item")),
           ("is_semi_protected", (current_revision.get "is_semi_protected").getD (.bool false)),
           ("is_locked", (current_revision.get "is_locked").getD (.bool false)),
           ("is_archived", (current_revision.get "is_archived").getD (.bool false)),
           ("is_dangling", (current_revision.get "is_dangling").getD (.bool false)),
           ("is_mass_edit_protected", (current_revision.get "is_mass_edit_protected").getD (.bool false)),
           ("is_deleted", .bool true),
           ("is_redirect", .bool false),
           ("entity", (current_revision.get "entity").getD (.obj []))]
        let st1 := write_revision st entity_id new_revision_id revision_data "pending"
        let st2 := insert_revision st1 internal_id new_revision_id false edit_type
        match delete_type with
        | .hard =>
            let st3 := hard_delete_entity st2 internal_id new_revision_id
            let st4 := mark_published st3 entity_id new_revision_id "published"
            (.ok { id := entity_id, revision_id := new_revision_id,
                   delete_type := delete_type, is_deleted := true }, st4)
        | .soft =>
            let cas := cas_update_head_with_status st2 internal_id h new_revision_id
              (truthyOpt (current_revision.get "is_semi_protected"))
              (truthyOpt (current_revision.get "is_locked"))
              (truthyOpt (current_revision.get "is_archived"))
              (truthyOpt (current_revision.get "is_dangling"))
              (truthyOpt (current_revision.get "is_mass_edit_protected"))
              false false
            if cas.1 then
              let st4 := mark_published cas.2 entity_id new_revision_id "published"
              (.ok { id := entity_id, revision_id := new_revision_id,
                     delete_type := delete_type, is_deleted := true }, st4)
            else
              (.httpError 409 "Concurrent modification detected", cas.2)

/-- Reverse lookup of the id mapping (the external id mapped to an internal
id), as the redirect-target query intends. -/
def reverse_resolve (st : Store) (internal_id : Nat) : Option String :=
  (st.id_mapping.find? (fun p => decide (p.2 = internal_id))).map (fun p => p.1)

/-- `VitessClient.get_redirect_target`: the external id this entity redirects
to, `none` when unregistered or when `redirects_to` is NULL. (The embedding
follows the query intent of mapping the internal target id back to an
external id.) -/
def get_redirect_target (st : Store) (entity_id : String) : Option String :=
  match resolve_id st entity_id with
  | none => none
  | some internal_id =>
    match get_head_row st internal_id with
    | some row =>
        match row.redirects_to with
        | some target_internal => reverse_resolve st target_internal
        | none => none
    | none => none

/-- `VitessClient.is_entity_deleted` on an external id (resolves first;
false for an unregistered id). -/
def is_entity_deleted_ext (st : Store) (entity_id : String) : Bool :=
  match resolve_id st entity_id with
  | none => false
  | some internal_id => is_entity_deleted st internal_id

/-- `VitessClient.is_entity_locked` on an external id. -/
def is_entity_locked_ext (st : Store) (entity_id : String) : Bool :=
  match resolve_id st entity_id with
  | none => false
  | some internal_id => is_entity_locked st internal_id

/-- `VitessClient.is_entity_archived` on an external id. -/
def is_entity_archived_ext (st : Store) (entity_id : String) : Bool :=
  match resolve_id st entity_id with
  | none => false
  | some internal_id => is_entity_archived st internal_id

/-- `VitessClient.get_head` on an external id: 0 when the id is unregistered
or has no head row. -/
def get_head_ext (st : Store) (entity_id : String) : Nat :=
  match resolve_id st entity_id with
  | none => 0
  | some internal_id => get_head st internal_id

/-- `VitessClient.insert_revision` on an external id; `none` embeds the
ValueError raised for an unregistered id. -/
def insert_revision_ext (st : Store) (entity_id : String) (revision_id : Nat)
    (is_mass_edit : Bool) (edit_type : String) : Option Store :=
  (resolve_id st entity_id).map
    (fun internal_id => insert_revision st internal_id revision_id is_mass_edit edit_type)

/-- `VitessClient.create_redirect`: insert one row into `entity_redirects`;
`none` embeds the ValueError raised when either id is unregistered, and the
IntegrityError the plain INSERT raises against the table\'s
`UNIQUE KEY unique_redirect (redirect_from_id, redirect_to_id)` when that
edge already exists. -/
def create_redirect_edge (st : Store) (from_id to_id created_by : String) : Option Store :=
  match resolve_id st from_id, resolve_id st to_id with
  | some from_internal, some to_internal =>
      if st.entity_redirects.any (fun edge =>
           edge.redirect_from_id == from_internal && edge.redirect_to_id == to_internal)
      then none
      else
        let edge : RedirectEdge :=
          { redirect_from_id := from_internal, redirect_to_id := to_internal,
            created_by := created_by }
        some { st with entity_redirects := st.entity_redirects ++ [edge] }
  | _, _ => none

/-- `VitessClient.set_redirect_target`: set or clear the head-row
`redirects_to` pointer; `none` embeds the ValueError for unregistered ids.
A missing head row makes the UPDATE a silent no-op. -/
def set_redirect_target (st : Store) (entity_id : String)
    (redirects_to_entity_id : Option String) : Option Store :=
  match resolve_id st entity_id with
  | none => none
  | some internal_id =>
    let target :=
      match redirects_to_entity_id with
      | none => some none
      | some t =>
          match resolve_id st t with
          | none => none
          | some ti => some (some ti)
    match target with
    | none => none
    | some redirects_to_internal =>
      match get_head_row st internal_id with
      | some row =>
          let updated : HeadRow := { row with redirects_to := redirects_to_internal }
          some { st with entity_head := alist_put st.entity_head internal_id updated }
      | none => some st

/-- `RedirectService.create_redirect` (services/entity_api/redirects.py lines
22-111): validate, write the redirect revision blob, insert the revision row,
insert the redirect edge, set the head-row pointer, mark published. `now`
stands for `datetime.now(timezone.utc).isoformat()`. -/
def create_redirect (now : String) (st : Store) (request : EntityRedirectRequest) :
    ApiResult EntityRedirectResponse × Store :=
  if request.redirect_from_id = request.redirect_to_id then
    (.httpError 400 "Cannot redirect to self", st)
  else if (get_redirect_target st request.redirect_from_id).isSome then
    (.httpError 409 "Redirect already exists", st)
  else if is_entity_deleted_ext st request.redirect_from_id then
    (.httpError 423 "Source entity has been deleted", st)
  else if is_entity_deleted_ext st request.redirect_to_id then
    (.httpError 423 "Target entity has been deleted", st)
  else if is_entity_locked_ext st request.redirect_to_id
       || is_entity_archived_ext st request.redirect_to_id then
    (.httpError 423 "Target entity is locked or archived", st)
  else
    let to_head_revision_id := get_head_ext st request.redirect_to_id
    if to_head_revision_id = 0 then
      (.httpError 404 "Target entity has no revisions", st)
    else
      let from_head_revision_id := get_head_ext st request.redirect_from_id
      let redirect_revision_id :=
        if from_head_revision_id ≠ 0 then from_head_revision_id + 1 else 1
      let redirect_revision_data : Json := .obj
        [("schema_version", .str "1.1.0"),
         ("redirects_to", .str request.redirect_to_id),
         ("entity", .obj
           [("id", .str request.redirect_from_id),
            ("type", .str "item"),
            ("labels", .obj []),
            ("descriptions", .obj []),
            ("aliases", .obj []),
            ("claims", .obj []),
            ("sitelinks", .obj [])])]
      let st1 := write_revision st request.redirect_from_id redirect_revision_id
        redirect_revision_data "pending"
      match insert_revision_ext st1 request.redirect_from_id redirect_revision_id
        false "redirect-create" with
      | none => (.httpError 500 "Internal Server Error", st1)
      | some st2 =>
        match create_redirect_edge st2 request.redirect_from_id
          request.redirect_to_id request.created_by with
        | none => (.httpError 500 "Internal Server Error", st2)
        | some st3 =>
          match set_redirect_target st3 request.redirect_from_id
            (some request.redirect_to_id) with
          | none => (.httpError 500 "Internal Server Error", st3)
          | some st4 =>
            let st5 := mark_published st4 request.redirect_from_id
              redirect_revision_id "published"
            (.ok { redirect_from_id := request.redirect_from_id,
                   redirect_to_id := request.redirect_to_id,
                   created_at := now,
                   revision_id := redirect_revision_id }, st5)

/-- Internal representation of a snak value, restricted to the variants the
Turtle serialiser dispatches on (internal_representation/values; variants the
formatter does not handle fall to its empty-string branch and are omitted).
Floats of the source (globe latitude/longitude/precision) are carried as
their formatted decimal strings; the globe precision field holds the
scientific-notation string that `_format_scientific_notation` produces. -/
inductive RdfValue where
  | entity (value : String) : RdfValue
  | string (value : String) : RdfValue
  | time (value : String) (timezone : Int) (before : Int) (after : Int)
         (precision : Nat) (calendarmodel : String) : RdfValue
  | quantity (value : String) (unit : String)
             (upper_bound : Option String) (lower_bound : Option String) : RdfValue
  | globe (latitude : String) (longitude : String) (precision : String)
          (globe : String) : RdfValue
  | monolingual (text : String) (language : String) : RdfValue
  | external_id (value : String) : RdfValue
  | commons_media (value : String) : RdfValue
  | geo_shape (value : String) : RdfValue
  | url (value : String) : RdfValue
  | novalue : RdfValue
  | somevalue : RdfValue
deriving DecidableEq

/-- The `kind` discriminator of a value. -/
def RdfValue.kind : RdfValue → String
  | .entity _ => "entity"
  | .string _ => "string"
  | .time _ _ _ _ _ _ => "time"
  | .quantity _ _ _ _ => "quantity"
  | .globe _ _ _ _ => "globe"
  | .monolingual _ _ => "monolingual"
  | .external_id _ => "external_id"
  | .commons_media _ => "commons_media"
  | .geo_shape _ => "geo_shape"
  | .url _ => "url"
  | .novalue => "novalue"
  | .somevalue => "somevalue"

/-- `TripleWriters._needs_value_node`: time, quantity and globe values get a
structured `wdv:` value node. -/
def needs_value_node (value : RdfValue) : Bool :=
  value.kind = "time" || value.kind = "quantity" || value.kind = "globe"

/-- Python truthiness of an `Optional[str]` (None and "" are falsy). -/
def opt_truthy : Option String → Bool
  | some s => s ≠ ""
  | none => false

/-- Python str() of an `Optional[str]` as interpolated by an f-string. -/
def pyStr : Option String → String
  | some s => s
  | none => "None"

/-- Python `str.replace` for a one-character pattern: replace every
occurrence of the character `a` by the string `r`. (Structurally recursive,
unlike `String.replace`, so concrete outputs evaluate.) -/
def replace_char (s : String) (a : Char) (r : String) : String :=
  String.mk ((s.data.map (fun c => if c = a then r.data else [c])).flatten)

/-- Python `str.startswith("+")`. (Structurally recursive, unlike
`String.startsWith`, so concrete outputs evaluate.) -/
def starts_with_plus (s : String) : Bool :=
  match s.data with
  | c :: _ => c = Char.ofNat 43
  | [] => false

/-- `ValueFormatter.escape_turtle`. -/
def escape_turtle (value : String) : String :=
  let v1 := replace_char value (Char.ofNat 92) "\\\\"
  let v2 := replace_char v1 (Char.ofNat 34) "\\\""
  let v3 := replace_char v2 (Char.ofNat 10) "\\n"
  let v4 := replace_char v3 (Char.ofNat 13) "\\r"
  replace_char v4 (Char.ofNat 9) "\\t"

/-- `ValueFormatter.format_value`: format a value as an RDF literal or URI. -/
def format_value : RdfValue → String
  | .entity v => "wd:" ++ v
  | .string v => "\"" ++ escape_turtle v ++ "\""
  | .time v _ _ _ _ _ => "\"" ++ v ++ "\"^^xsd:dateTime"
  | .quantity v _ _ _ => v ++ "^^xsd:decimal"
  | .globe lat lon _ _ => "\"Point(" ++ lon ++ " " ++ lat ++ ")\"^^geo:wktLiteral"
  | .monolingual text language => "\"" ++ escape_turtle text ++ "\"@" ++ language
  | .external_id v => "\"" ++ escape_turtle v ++ "\""
  | .commons_media v => "\"" ++ escape_turtle v ++ "\""
  | .geo_shape v => "\"" ++ escape_turtle v ++ "\""
  | .url v => "\"" ++ escape_turtle v ++ "\""
  | .novalue => "wikibase:noValue"
  | .somevalue => "wikibase:someValue"

/-- `_serialize_value` (rdf_builder/value_node.py): the canonical string of a
structured value that gets hashed into its `wdv:` node id. Only structured
values reach the hash; the remaining variants use the str() fallback of the
source, which no caller hashes, embedded as "". -/
def serialize_value : RdfValue → String
  | .time value timezone before after precision calendarmodel =>
      let time_str :=
        if timezone = 0 && starts_with_plus value then value.drop 1 else value
      let parts := ["t:" ++ time_str, toString precision, toString timezone]
        ++ (if before ≠ 0 then [toString before] else [])
        ++ (if after ≠ 0 then [toString after] else [])
        ++ [calendarmodel]
      String.intercalate ":" parts
  | .quantity value unit upper_bound lower_bound =>
      let parts := ["q:" ++ value ++ ":" ++ unit]
        ++ (if opt_truthy upper_bound then [pyStr upper_bound] else [])
        ++ (if opt_truthy lower_bound then [pyStr lower_bound] else [])
      String.intercalate ":" parts
  | .globe latitude longitude precision globe =>
      "g:" ++ latitude ++ ":" ++ longitude ++ ":" ++ precision ++ ":" ++ globe
  | _ => ""

/-- `generate_value_node_uri`: the `wdv:` node id is the MD5 hex digest of
the canonical value string. `md5hex` stands for `hashlib.md5(...).hexdigest()`. -/
def generate_value_node_uri (md5hex : String → String) (value : RdfValue) : String :=
  md5hex (serialize_value value)

/-- `HashDedupeBag` (rdf_builder/hashing/deduplication_cache.py): a lossy
dedup cache keyed by namespace plus truncated hash. -/
structure HashDedupeBag where
  bag : List (String × String)
  cutoff : Nat
deriving DecidableEq

/-- A fresh bag with the default cutoff of 5 hash characters. -/
def HashDedupeBag.new : HashDedupeBag :=
  { bag := [], cutoff := 5 }

/-- `HashDedupeBag.already_seen`: true only when the full stored hash under
the truncated key equals the probe; on any miss the probe is stored. -/
def already_seen (b : HashDedupeBag) (hash ns : String) : Bool × HashDedupeBag :=
  let key := ns ++ hash.take b.cutoff
  match alist_get b.bag key with
  | some stored =>
      if stored = hash then (true, b)
      else (false, { b with bag := alist_put b.bag key hash })
  | none => (false, { b with bag := alist_put b.bag key hash })

/-- The shared guard of the three value-node writers: consult the bag (when
deduplication is on) before emitting a block. Returns whether to skip, and
the updated bag. -/
def dedupe_gate (dedupe : Option HashDedupeBag) (value_id : String) :
    Bool × Option HashDedupeBag :=
  match dedupe with
  | some bag =>
      let r := already_seen bag value_id "wdv"
      (r.1, some r.2)
  | none => (false, none)

/-- The block body of `ValueNodeWriter.write_time_value_node`. -/
def time_value_node_chunks (value_id : String) (value : String) (timezone : Int)
    (precision : Nat) (calendarmodel : String) : List String :=
  let time_str :=
  if timezone = 0 && starts_with_plus value then value.drop 1 else value
  ["wdv:" ++ value_id ++ " a wikibase:TimeValue ;\n",
   "\twikibase:timeValue \"" ++ time_str ++ "\"^^xsd:dateTime ;\n",
   "\twikibase:timePrecision \"" ++ toString precision ++ "\"^^xsd:integer ;\n",
   "\twikibase:timeTimezone \"" ++ toString timezone ++ "\"^^xsd:integer ;\n",
   "\twikibase:timeCalendarModel <" ++ calendarmodel ++ "> .\n"]

/-- The block body of `ValueNodeWriter.write_quantity_value_node`, including
its conditional bound segments. -/
def quantity_value_node_chunks (value_id : String) (value unit : String)
    (upper_bound lower_bound : Option String) : List String :=
  ["wdv:" ++ value_id ++ " a wikibase:QuantityValue ;\n",
   "\twikibase:quantityAmount \"" ++ value ++ "\"^^xsd:decimal ;\n",
   "\twikibase:quantityUnit <" ++ unit ++ ">"]
  ++ (if opt_truthy upper_bound then
        [" ;\n", "\twikibase:quantityUpperBound \"" ++ pyStr upper_bound ++ "\"^^xsd:decimal"]
      else [])
  ++ (if opt_truthy lower_bound then
        (if !opt_truthy upper_bound then [" ;\n"] else [])
        ++ ["\twikibase:quantityLowerBound \"" ++ pyStr lower_bound ++ "\"^^xsd:decimal"]
      else [])
  ++ [" .\n"]

/-- The block body of `ValueNodeWriter.write_globe_value_node`. -/
def globe_value_node_chunks (value_id : String) (latitude longitude precision globe : String) :
    List String :=
  ["wdv:" ++ value_id ++ " a wikibase:GlobecoordinateValue ;\n",
   "\twikibase:geoLatitude \"" ++ latitude ++ "\"^^xsd:double ;\n",
   "\twikibase:geoLongitude \"" ++ longitude ++ "\"^^xsd:double ;\n",
   "\twikibase:geoPrecision \"" ++ precision ++ "\"^^xsd:double ;\n",
   "\twikibase:geoGlobe <" ++ globe ++ "> .\n"]

/-- `ValueNodeWriter.write_*_value_node`, dispatched on the value kind as the
statement writer does: gate on the dedup bag, then emit the matching block.
Non-structured values emit nothing (they are guarded by `needs_value_node`
in every caller). -/
def write_value_node (value_id : String) (value : RdfValue)
    (dedupe : Option HashDedupeBag) : List String × Option HashDedupeBag :=
  let g := dedupe_gate dedupe value_id
  if g.1 then ([], g.2)
  else
    match value with
    | .time v tz _ _ prec cal => (time_value_node_chunks value_id v tz prec cal, g.2)
    | .quantity v unit ub lb => (quantity_value_node_chunks value_id v unit ub lb, g.2)
    | .globe lat lon prec gl => (globe_value_node_chunks value_id lat lon prec gl, g.2)
    | _ => ([], g.2)

/-- `Qualifier` (internal representation). -/
structure Qualifier where
  property : String
  value : RdfValue
deriving DecidableEq

/-- `ReferenceValue` (internal representation): one reference snak. -/
structure ReferenceValue where
  property : String
  value : RdfValue
deriving DecidableEq

/-- `Reference` (internal representation): caller-supplied hash plus snaks. -/
structure Reference where
  hash : String
  snaks : List ReferenceValue
deriving DecidableEq

/-- `Statement` (internal representation). `rank` carries the enum value
string (normal, preferred, deprecated), as `RDFStatement` reads it. -/
structure Statement where
  property : String
  value : RdfValue
  rank : String
  qualifiers : List Qualifier
  references : List Reference
  statement_id : String
deriving DecidableEq

/-- `Entity` (internal representation): the snapshot document the converter
serialises. Dicts are carried as ordered association lists. -/
structure Entity where
  id : String
  labels : List (String × String)
  descriptions : List (String × String)
  aliases : List (String × List String)
  statements : List Statement
  sitelinks : List (String × Json)
deriving DecidableEq

/-- `PropertyPredicates` (property_registry/models.py). -/
structure PropertyPredicates where
  direct : String
  statement : String
  qualifier : String
  reference : String
  value_node : Option String := none
  qualifier_value : Option String := none
  reference_value : Option String := none
  statement_normalized : Option String := none
  qualifier_normalized : Option String := none
  reference_normalized : Option String := none
  direct_normalized : Option String := none
deriving DecidableEq

/-- `PropertyShape` (property_registry/models.py). Label and description
entries carry the raw per-language dicts, read via `.get("value", "")`. -/
structure PropertyShape where
  pid : String
  datatype : String
  predicates : PropertyPredicates
  labels : List (String × Json) := []
  descriptions : List (String × Json) := []
deriving DecidableEq

/-- Modelled from the spec: the default shape for a property the registry
does not know (property_registry/registry.py is absent from the sources; the
spec has the registry hand one shape per property id, with the standard
predicate spellings derived from the id). -/
def default_property_shape (pid : String) : PropertyShape :=
  { pid := pid, datatype := "string",
    predicates :=
      { direct := "wdt:" ++ pid, statement := "ps:" ++ pid,
        qualifier := "pq:" ++ pid, reference := "pr:" ++ pid } }

/-- Modelled from the spec: `PropertyRegistry` maps a property id to its
shape; loaded once at startup and immutable afterwards
(property_registry/registry.py is absent from the sources). -/
structure PropertyRegistry where
  shapes : List (String × PropertyShape)
deriving DecidableEq

/-- Shape lookup (`self.properties.shape(pid)`). -/
def PropertyRegistry.shape (reg : PropertyRegistry) (pid : String) : PropertyShape :=
  (alist_get reg.shapes pid).getD (default_property_shape pid)

/-- `URIGenerator.entity_prefixed`. -/
def entity_prefixed (entity_id : String) : String :=
  "wd:" ++ entity_id

/-- `URIGenerator.data_prefixed`. -/
def data_prefixed (entity_id : String) : String :=
  "data:" ++ entity_id

/-- `URIGenerator.statement_prefixed`: all `$` become `-`. -/
def statement_prefixed (statement_id : String) : String :=
  "wds:" ++ replace_char statement_id (Char.ofNat 36) "-"

/-- The qualifier loop of `TripleWriters.write_statement`. Note that the
source addresses the qualifier predicates through `shape`, the shape of the
statement property, not of the qualifier property. -/
def write_qualifiers (md5hex : String → String) (stmt_uri : String)
    (shape : PropertyShape) (dedupe : Option HashDedupeBag) :
    List Qualifier → List String × Option HashDedupeBag
  | [] => ([], dedupe)
  | qual :: rest =>
    let part : List String × Option HashDedupeBag :=
      if needs_value_node qual.value then
        let qualifier_node_id := generate_value_node_uri md5hex qual.value
        let wb := write_value_node qualifier_node_id qual.value dedupe
        ([stmt_uri ++ " " ++ pyStr shape.predicates.qualifier_value
            ++ " wdv:" ++ qualifier_node_id ++ " .\n"] ++ wb.1, wb.2)
      else
        ([stmt_uri ++ " " ++ shape.predicates.qualifier ++ " "
            ++ format_value qual.value ++ " .\n"], dedupe)
    let restPart := write_qualifiers md5hex stmt_uri shape part.2 rest
    (part.1 ++ restPart.1, restPart.2)

/-- The snak loop inside the reference loop of `write_statement`. -/
def write_reference_snaks (md5hex : String → String) (ref_uri : String)
    (registry : PropertyRegistry) (dedupe : Option HashDedupeBag) :
    List ReferenceValue → List String × Option HashDedupeBag
  | [] => ([], dedupe)
  | snak :: rest =>
    let snak_shape := registry.shape snak.property
    let part : List String × Option HashDedupeBag :=
      if needs_value_node snak.value then
        let ref_node_id := generate_value_node_uri md5hex snak.value
        let wb := write_value_node ref_node_id snak.value dedupe
        ([ref_uri ++ " " ++ pyStr snak_shape.predicates.reference_value
            ++ " wdv:" ++ ref_node_id ++ " .\n"] ++ wb.1, wb.2)
      else
        ([ref_uri ++ " " ++ snak_shape.predicates.reference ++ " "
            ++ format_value snak.value ++ " .\n"], dedupe)
    let restPart := write_reference_snaks md5hex ref_uri registry part.2 rest
    (part.1 ++ restPart.1, restPart.2)

/-- The reference loop of `write_statement`; `RDFReference` raises when a
reference has no hash, embedded as an `Except.error`. -/
def write_references (md5hex : String → String) (stmt_uri : String)
    (registry : PropertyRegistry) (dedupe : Option HashDedupeBag) :
    List Reference → Except String (List String × Option HashDedupeBag)
  | [] => .ok ([], dedupe)
  | ref :: rest =>
    if ref.hash = "" then
      .error ("Reference has no hash. Cannot generate wdref: URI for statement: " ++ stmt_uri)
    else
      let ref_uri := "wdref:" ++ ref.hash
      let snaks := write_reference_snaks md5hex ref_uri registry dedupe ref.snaks
      match write_references md5hex stmt_uri registry snaks.2 rest with
      | .error e => .error e
      | .ok (out, bag) =>
          .ok ([stmt_uri ++ " prov:wasDerivedFrom " ++ ref_uri ++ " .\n"]
            ++ snaks.1 ++ out, bag)

/-- `TripleWriters.write_statement` (writers/triple.py lines 80-208). -/
def write_statement (md5hex : String → String) (entity_id : String)
    (stmt : Statement) (shape : PropertyShape) (registry : PropertyRegistry)
    (dedupe : Option HashDedupeBag) :
    Except String (List String × Option HashDedupeBag) :=
  let entity_uri := entity_prefixed entity_id
  let stmt_uri := statement_prefixed stmt.statement_id
  let link := [entity_uri ++ " p:" ++ stmt.property ++ " " ++ stmt_uri ++ " .\n"]
  let typePart :=
    if stmt.rank = "normal" then
      [stmt_uri ++ " a wikibase:Statement, wikibase:BestRank .\n",
       entity_uri ++ " wdt:" ++ stmt.property ++ " " ++ format_value stmt.value ++ " .\n"]
    else
      [stmt_uri ++ " a wikibase:Statement .\n"]
  let valuePart : List String × Option HashDedupeBag :=
    if needs_value_node stmt.value then
      let value_node_id := generate_value_node_uri md5hex stmt.value
      let wb := write_value_node value_node_id stmt.value dedupe
      ([stmt_uri ++ " " ++ pyStr shape.predicates.value_node
          ++ " wdv:" ++ value_node_id ++ " .\n"] ++ wb.1, wb.2)
    else
      ([stmt_uri ++ " " ++ shape.predicates.statement ++ " "
          ++ format_value stmt.value ++ " .\n"], dedupe)
  let rank_name :=
    if stmt.rank = "normal" then "NormalRank"
    else if stmt.rank = "preferred" then "PreferredRank"
    else "DeprecatedRank"
  let rankPart := [stmt_uri ++ " wikibase:rank wikibase:" ++ rank_name ++ " .\n"]
  let quals := write_qualifiers md5hex stmt_uri shape valuePart.2 stmt.qualifiers
  match write_references md5hex stmt_uri registry quals.2 stmt.references with
  | .error e => .error e
  | .ok (refChunks, bag) =>
      .ok (link ++ typePart ++ valuePart.1 ++ rankPart ++ quals.1 ++ refChunks, bag)

/-- `EntityConverter._write_statements`: fold `write_statement` over the
statements, threading the dedup bag. -/
def write_statements_section (md5hex : String → String)
    (registry : PropertyRegistry) (entity_id : String)
    (dedupe : Option HashDedupeBag) :
    List Statement → Except String (List String × Option HashDedupeBag)
  | [] => .ok ([], dedupe)
  | stmt :: rest =>
    match write_statement md5hex entity_id stmt (registry.shape stmt.property)
      registry dedupe with
    | .error e => .error e
    | .ok (out, bag2) =>
      match write_statements_section md5hex registry entity_id bag2 rest with
      | .error e => .error e
      | .ok (out2, bag3) => .ok (out ++ out2, bag3)

/-- `TripleWriters.write_entity_type`. -/
def write_entity_type (entity_id : String) : List String :=
  [entity_prefixed entity_id ++ " a wikibase:Item .\n"]

/-- `TripleWriters.write_dataset_triples`. -/
def write_dataset_triples (entity_id : String) : List String :=
  [data_prefixed entity_id ++ " a schema:Dataset .\n",
   data_prefixed entity_id ++ " schema:about " ++ entity_prefixed entity_id ++ " .\n",
   data_prefixed entity_id
     ++ " cc:license <http://creativecommons.org/publicdomain/zero/1.0/> .\n"]

/-- `TripleWriters.write_label`. -/
def write_label (entity_id lang label : String) : List String :=
  [entity_prefixed entity_id ++ " rdfs:label \"" ++ label ++ "\"@" ++ lang ++ " .\n"]

/-- `TripleWriters.write_description`. -/
def write_description (entity_id lang description : String) : List String :=
  [entity_prefixed entity_id ++ " schema:description \"" ++ description
     ++ "\"@" ++ lang ++ " .\n"]

/-- `TripleWriters.write_alias`. -/
def write_alias (entity_id lang al : String) : List String :=
  [entity_prefixed entity_id ++ " skos:altLabel \"" ++ al ++ "\"@" ++ lang ++ " .\n"]

/-- `TripleWriters.write_sitelink`. -/
def write_sitelink (entity_id : String) (sitelink_data : Json) : List String :=
  let site_key := (sitelink_data.getStr "site").getD ""
  let title := (sitelink_data.getStr "title").getD ""
  let wiki_url := "https://" ++ site_key ++ ".wikipedia.org/wiki/"
    ++ replace_char title (Char.ofNat 32) "_"
  [entity_prefixed entity_id ++ " schema:sameAs <" ++ wiki_url ++ "> .\n"]

/-- `EntityConverter._write_entity_metadata`: type, dataset triples, labels,
descriptions, aliases, sitelinks, in dict order. -/
def write_entity_metadata_section (e : Entity) : List String :=
  write_entity_type e.id
  ++ write_dataset_triples e.id
  ++ (e.labels.map (fun p => write_label e.id p.1 p.2)).flatten
  ++ (e.descriptions.map (fun p => write_description e.id p.1 p.2)).flatten
  ++ (e.aliases.map (fun p => (p.2.map (fun a => write_alias e.id p.1 a)).flatten)).flatten
  ++ (e.sitelinks.map (fun p => write_sitelink e.id p.2)).flatten

/-- Insert a string into an ascending list (helper for Python `sorted`). -/
def insertSortedString (x : String) : List String → List String
  | [] => [x]
  | y :: rest => if x ≤ y then x :: y :: rest else y :: insertSortedString x rest

/-- Ascending sort of strings (Python `sorted` on a set of strings). -/
def sortStrings (xs : List String) : List String :=
  xs.foldr insertSortedString []

/-- `PropertyOntologyWriter._datatype_uri`. -/
def datatype_uri (datatype : String) : String :=
  (alist_get
    [("wikibase-item", "http://wikiba.se/ontology#WikibaseItem"),
     ("wikibase-string", "http://wikiba.se/ontology#String"),
     ("string", "http://wikiba.se/ontology#String"),
     ("external-id", "http://wikiba.se/ontology#ExternalId"),
     ("wikibase-monolingualtext", "http://wikiba.se/ontology#Monolingualtext"),
     ("monolingualtext", "http://wikiba.se/ontology#Monolingualtext"),
     ("commonsmedia", "http://wikiba.se/ontology#CommonsMedia"),
     ("commonsMedia", "http://wikiba.se/ontology#CommonsMedia"),
     ("globecoordinate", "http://wikiba.se/ontology#Globecoordinate"),
     ("globe-coordinate", "http://wikiba.se/ontology#Globecoordinate"),
     ("quantity", "http://wikiba.se/ontology#Quantity"),
     ("url", "http://wikiba.se/ontology#Url"),
     ("math", "http://wikiba.se/ontology#Math"),
     ("time", "http://wikiba.se/ontology#Time"),
     ("geo-shape", "http://wikiba.se/ontology#GeoShape"),
     ("geoshape", "http://wikiba.se/ontology#GeoShape"),
     ("tabular-data", "http://wikiba.se/ontology#TabularData"),
     ("tabulardata", "http://wikiba.se/ontology#TabularData")] datatype).getD
    "http://wikiba.se/ontology#String"

/-- `get_owl_type` (property_registry/models.py). -/
def get_owl_type (datatype : String) : String :=
  if ["wikibase-item", "wikibase-lexeme", "wikibase-form", "wikibase-sense",
      "wikibase-property", "commonsmedia", "commonsMedia", "string", "url",
      "math", "geo-shape", "monolingualtext", "external-id", "tabular-data",
      "musical-notation", "entity-schema"].contains datatype then
    "owl:ObjectProperty"
  else
    "owl:DatatypeProperty"

/-- Modelled from the spec: the repository name used in no-value blank node
ids; `settings.wikibase_repository_name` defaults to "wikidata" per the
writer docstring, and the settings module is absent from the sources. -/
def wikibase_repository_name : String := "wikidata"

/-- `PropertyOntologyWriter.write_property_metadata`. -/
def write_property_metadata (shape : PropertyShape) : List String :=
  let pid := shape.pid
  ["wd:" ++ pid ++ " a wikibase:Property ;\n"]
  ++ (shape.labels.map (fun p =>
        let label := (p.2.getStr "value").getD ""
        ["\trdfs:label \"" ++ label ++ "\"@" ++ p.1 ++ " ;\n",
         "\tskos:prefLabel \"" ++ label ++ "\"@" ++ p.1 ++ " ;\n",
         "\tschema:name \"" ++ label ++ "\"@" ++ p.1 ++ " ;\n"])).flatten
  ++ (shape.descriptions.map (fun p =>
        let description := (p.2.getStr "value").getD ""
        ["\tschema:description \"" ++ description ++ "\"@" ++ p.1 ++ " ;\n"])).flatten
  ++ ["\twikibase:propertyType <" ++ datatype_uri shape.datatype ++ "> ;\n",
      "\twikibase:directClaim wdt:" ++ pid ++ " ;\n",
      "\twikibase:claim p:" ++ pid ++ " ;\n",
      "\twikibase:statementProperty ps:" ++ pid ++ " ;\n"]
  ++ (if opt_truthy shape.predicates.value_node then
        ["\twikibase:statementValue " ++ pyStr shape.predicates.value_node ++ " ;\n",
         "\twikibase:qualifierValue pqv:" ++ pid ++ " ;\n",
         "\twikibase:referenceValue prv:" ++ pid ++ " ;\n"]
      else [])
  ++ (if opt_truthy shape.predicates.statement_normalized then
        ["\twikibase:statementValueNormalized psn:" ++ pid ++ " ;\n"] else [])
  ++ (if opt_truthy shape.predicates.qualifier_normalized then
        ["\twikibase:qualifierValueNormalized pqn:" ++ pid ++ " ;\n"] else [])
  ++ (if opt_truthy shape.predicates.reference_normalized then
        ["\twikibase:referenceValueNormalized prn:" ++ pid ++ " ;\n"] else [])
  ++ (if opt_truthy shape.predicates.direct_normalized then
        ["\twikibase:directClaimNormalized wdtn:" ++ pid ++ " ;\n"] else [])
  ++ ["\twikibase:qualifier pq:" ++ pid ++ " ;\n",
      "\twikibase:reference pr:" ++ pid ++ " ;\n",
      "\twikibase:novalue wdno:" ++ pid ++ " .\n"]

/-- `PropertyOntologyWriter.write_property`. -/
def write_property (shape : PropertyShape) : List String :=
  let pid := shape.pid
  ["p:" ++ pid ++ " a owl:ObjectProperty .\n",
   "psv:" ++ pid ++ " a owl:ObjectProperty .\n",
   "pqv:" ++ pid ++ " a owl:ObjectProperty .\n",
   "prv:" ++ pid ++ " a owl:ObjectProperty .\n",
   "wdt:" ++ pid ++ " a " ++ get_owl_type shape.datatype ++ " .\n",
   "ps:" ++ pid ++ " a owl:ObjectProperty .\n",
   "pq:" ++ pid ++ " a owl:ObjectProperty .\n",
   "pr:" ++ pid ++ " a owl:ObjectProperty .\n"]
  ++ (if opt_truthy shape.predicates.statement_normalized then
        ["psn:" ++ pid ++ " a owl:ObjectProperty .\n"] else [])
  ++ (if opt_truthy shape.predicates.qualifier_normalized then
        ["pqn:" ++ pid ++ " a owl:ObjectProperty .\n"] else [])
  ++ (if opt_truthy shape.predicates.reference_normalized then
        ["prn:" ++ pid ++ " a owl:ObjectProperty .\n"] else [])
  ++ (if opt_truthy shape.predicates.direct_normalized then
        ["wdtn:" ++ pid ++ " a owl:ObjectProperty .\n"] else [])

/-- `PropertyOntologyWriter.write_novalue_class`; the blank node id is the
MD5 hex of "owl:complementOf-<repository>-<pid>". -/
def write_novalue_class (md5hex : String → String) (property_id : String) : List String :=
  let blank_node_id :=
    md5hex ("owl:complementOf-" ++ wikibase_repository_name ++ "-" ++ property_id)
  ["wdno:" ++ property_id ++ " a owl:Class ;\n",
   "\towl:complementOf _:" ++ blank_node_id ++ " .\n",
   "\n",
   "_:" ++ blank_node_id ++ " a owl:Restriction ;\n",
   "\towl:onProperty wdt:" ++ property_id ++ " ;\n",
   "\towl:someValuesFrom owl:Thing .\n"]

/-- The property ids of `EntityConverter._write_property_metadata`: statement
properties, then qualifier and reference-snak properties, deduplicated. -/
def collect_property_ids (e : Entity) : List String :=
  (e.statements.map (fun stmt => stmt.property))
  ++ (e.statements.map (fun stmt =>
        stmt.qualifiers.map (fun q => q.property)
        ++ (stmt.references.map (fun r => r.snaks.map (fun sn => sn.property))).flatten)).flatten

/-- `EntityConverter._write_property_metadata`: the three ontology blocks for
every used property, in sorted id order. -/
def write_property_metadata_section (reg : PropertyRegistry)
    (md5hex : String → String) (e : Entity) : List String :=
  ((sortStrings (collect_property_ids e).dedup).map (fun pid =>
    let shape := reg.shape pid
    write_property_metadata shape ++ write_property shape
      ++ write_novalue_class md5hex pid)).flatten

/-- `EntityConverter._collect_referenced_entities`: entity-kind values in
statement values, qualifiers, and reference snaks. -/
def collect_referenced_entities (e : Entity) : List String :=
  (e.statements.map (fun stmt =>
    (match stmt.value with | .entity v => [v] | _ => [])
    ++ (stmt.qualifiers.map (fun q =>
          match q.value with | .entity v => [v] | _ => [])).flatten
    ++ (stmt.references.map (fun r =>
          (r.snaks.map (fun sn =>
            match sn.value with | .entity v => [v] | _ => [])).flatten)).flatten)).flatten

/-- `EntityConverter` construction state: the registry plus the optional
collaborators. The loader functions stand for the metadata directory, the
redirect cache directory, and the Vitess incoming-redirect lookup. -/
structure EntityConverter where
  properties : PropertyRegistry
  entity_metadata_dir : Option (String → Option Entity) := none
  redirects_dir : Option (String → Option (List String)) := none
  vitess_client : Option (String → List String) := none
  enable_deduplication : Bool := true


/-- `EntityConverter._write_referenced_entity_metadata`: metadata blocks for
referenced entities, skipped entirely without a metadata dir; missing files
are skipped; empty labels and descriptions are filtered. -/
def write_referenced_entity_metadata (conv : EntityConverter) (e : Entity) : List String :=
  match conv.entity_metadata_dir with
  | none => []
  | some load =>
    ((sortStrings (collect_referenced_entities e).dedup).map (fun rid =>
      match load rid with
      | none => []
      | some ref_entity =>
        write_entity_type ref_entity.id
        ++ (ref_entity.labels.map (fun p =>
              if p.2 ≠ "" then write_label ref_entity.id p.1 p.2 else [])).flatten
        ++ (ref_entity.descriptions.map (fun p =>
              if p.2 ≠ "" then write_description ref_entity.id p.1 p.2 else [])).flatten)).flatten

/-- `EntityConverter._fetch_redirects`: collect from the Vitess client and
the cache directory, then `list(set(...))`. `set_order` models the
unspecified iteration order of a Python set of strings; a run of the program
fixes one such order. -/
def fetch_redirects (conv : EntityConverter) (set_order : List String → List String)
    (entity_id : String) : List String :=
  let redirects :=
    (match conv.vitess_client with
     | some get_incoming => get_incoming entity_id
     | none => [])
    ++ (match conv.redirects_dir with
        | some load => (load entity_id).getD []
        | none => [])
  set_order redirects

/-- Modelled from the spec: one incoming-redirect triple per redirecting
entity (`TripleWriters.write_redirect` is referenced by the converter but
absent from the sources; the spec lists "incoming-redirect triples" as the
block's content). -/
def write_redirect (redirect_id entity_id : String) : List String :=
  [entity_prefixed redirect_id ++ " owl:sameAs " ++ entity_prefixed entity_id ++ " .\n"]

/-- `EntityConverter._write_redirects`. -/
def write_redirects_section (conv : EntityConverter)
    (set_order : List String → List String) (e : Entity) : List String :=
  ((fetch_redirects conv set_order e.id).map
    (fun redirect_id => write_redirect redirect_id e.id)).flatten

/-- Modelled from the spec: the Turtle header declares the standard Wikibase
prefix set (writers/prefixes.py is absent from the sources). It is one
leading chunk of the output. -/
def TURTLE_PREFIXES : String :=
  "@prefix wd: <http://www.wikidata.org/entity/> .\n"
  ++ "@prefix wds: <http://www.wikidata.org/entity/statement/> .\n"
  ++ "@prefix wdv: <http://www.wikidata.org/value/> .\n"
  ++ "@prefix wdref: <http://www.wikidata.org/reference/> .\n"
  ++ "@prefix wdt: <http://www.wikidata.org/prop/direct/> .\n"
  ++ "@prefix wdtn: <http://www.wikidata.org/prop/direct-normalized/> .\n"
  ++ "@prefix wdno: <http://www.wikidata.org/prop/novalue/> .\n"
  ++ "@prefix p: <http://www.wikidata.org/prop/> .\n"
  ++ "@prefix ps: <http://www.wikidata.org/prop/statement/> .\n"
  ++ "@prefix psv: <http://www.wikidata.org/prop/statement/value/> .\n"
  ++ "@prefix psn: <http://www.wikidata.org/prop/statement/value-normalized/> .\n"
  ++ "@prefix pq: <http://www.wikidata.org/prop/qualifier/> .\n"
  ++ "@prefix pqv: <http://www.wikidata.org/prop/qualifier/value/> .\n"
  ++ "@prefix pqn: <http://www.wikidata.org/prop/qualifier/value-normalized/> .\n"
  ++ "@prefix pr: <http://www.wikidata.org/prop/reference/> .\n"
  ++ "@prefix prv: <http://www.wikidata.org/prop/reference/value/> .\n"
  ++ "@prefix prn: <http://www.wikidata.org/prop/reference/value-normalized/> .\n"
  ++ "@prefix wikibase: <http://wikiba.se/ontology#> .\n"
  ++ "@prefix rdfs: <http://www.w3.org/2000/01/rdf-schema#> .\n"
  ++ "@prefix schema: <http://schema.org/> .\n"
  ++ "@prefix skos: <http://www.w3.org/2004/02/skos/core#> .\n"
  ++ "@prefix owl: <http://www.w3.org/2002/07/owl#> .\n"
  ++ "@prefix xsd: <http://www.w3.org/2001/XMLSchema#> .\n"
  ++ "@prefix geo: <http://www.opengis.net/ont/geosparql#> .\n"
  ++ "@prefix prov: <http://www.w3.org/ns/prov#> .\n"
  ++ "@prefix cc: <http://creativecommons.org/ns#> .\n"
  ++ "@prefix data: <https://www.wikidata.org/wiki/Special:EntityData/> .\n"

/-- `EntityConverter.convert_to_turtle`: the output as the ordered list of
`output.write` chunks; the dedup bag starts fresh per call. -/
def convert_to_turtle (conv : EntityConverter) (md5hex : String → String)
    (set_order : List String → List String) (e : Entity) :
    Except String (List String) :=
  let dedupe := if conv.enable_deduplication then some HashDedupeBag.new else none
  match write_statements_section md5hex conv.properties e.id dedupe e.statements with
  | .error err => .error err
  | .ok (stmt_chunks, _) =>
    .ok ([TURTLE_PREFIXES]
      ++ write_entity_metadata_section e
      ++ stmt_chunks
      ++ write_redirects_section conv set_order e
      ++ write_referenced_entity_metadata conv e
      ++ write_property_metadata_section conv.properties md5hex e)

/-- `EntityConverter.convert_to_string`: the Turtle document text. -/
def convert_to_string (conv : EntityConverter) (md5hex : String → String)
    (set_order : List String → List String) (e : Entity) :
    Except String String :=
  (convert_to_turtle conv md5hex set_order e).map (fun chunks => String.join chunks)

/-- The `wdv:` node ids referenced by an entity, in the order the statement
writer visits them (statement value, qualifiers, then reference snaks, per
statement). -/
def value_node_refs (md5hex : String → String) (e : Entity) : List String :=
  (e.statements.map (fun stmt =>
    (if needs_value_node stmt.value then [generate_value_node_uri md5hex stmt.value] else [])
    ++ (stmt.qualifiers.map (fun q =>
          if needs_value_node q.value then [generate_value_node_uri md5hex q.value] else [])).flatten
    ++ (stmt.references.map (fun r =>
          (r.snaks.map (fun sn =>
            if needs_value_node sn.value then [generate_value_node_uri md5hex sn.value] else [])).flatten)).flatten)).flatten

theorem alist_get_put_self {α β : Type} [DecidableEq α] (l : List (α × β)) (k : α) (v : β) :
    alist_get (alist_put l k v) k = some v := by
  induction l with
  | nil => simp [alist_put, alist_get]
  | cons p rest ih =>
    by_cases h : p.1 = k
    · simp [alist_put, alist_get, h]
    · simpa [alist_put, alist_get, h] using ih

theorem alist_get_put_ne {α β : Type} [DecidableEq α] (l : List (α × β)) (k k2 : α) (v : β)
    (h : k ≠ k2) : alist_get (alist_put l k v) k2 = alist_get l k2 := by
  induction l with
  | nil => simp [alist_put, alist_get, h]
  | cons p rest ih =>
    by_cases hp : p.1 = k
    · simp [alist_put, alist_get, hp, h]
    · simp [alist_put, alist_get, hp]
      split
      · rfl
      · exact ih

theorem write_revision_entity_head (st : Store) (e : String) (r : Nat) (d : Json) (p : String) :
    (write_revision st e r d p).entity_head = st.entity_head := rfl

theorem insert_revision_entity_head (st : Store) (i r : Nat) (m : Bool) (t : String) :
    (insert_revision st i r m t).entity_head = st.entity_head := by
  unfold insert_revision
  split <;> rfl

theorem core_no_head_row_409 (hashFn : String → Nat) (now : String) (st : Store)
    (req : EntityCreateRequest) (e : String) (i : Nat)
    (hnone : alist_get st.entity_head i = none)
    (hblob : read_revision st e 0 = none) :
    (create_entity_core hashFn now st req e i).1
      = .httpError 409 "Concurrent modification detected" := by
  have hgh : get_head st i = 0 := by
    simp [get_head, get_head_row, hnone]
  simp only [create_entity_core, hgh, hblob]
  have hcas : ∀ (st2 : Store) (nh : Nat) (f1 f2 f3 f4 f5 f6 f7 : Bool),
      st2.entity_head = st.entity_head →
      cas_update_head_with_status st2 i 0 nh f1 f2 f3 f4 f5 f6 f7 = (false, st2) := by
    intro st2 nh f1 f2 f3 f4 f5 f6 f7 hh
    simp [cas_update_head_with_status, hh, hnone]
  rw [hcas]
  · simp
  · rw [insert_revision_entity_head, write_revision_entity_head]

/-- Fixture: the first-write request of spec boundary scenario 1. -/
def c1_request : EntityCreateRequest :=
  { data := .obj [("id", .str "Q99999"), ("type", .str "item"),
      ("labels", .obj [("en", .obj [("language", .str "en"), ("value", .str "Test")])])] }

/-- C1: a first write of a never-seen external id, run against the 4.C
contract that `get_head` returns 0 when the entity has no head row, does NOT
succeed with 200/revision 1: since `get_head` yields the integer 0 rather
than `None`, `create_entity` skips its new-entity branch
(`insert_head_with_status` is unreachable) and instead issues the CAS with
`expected_head = 0` against an absent head row, which matches no row, so the
request fails with 409 after having written the pending blob and the
revision row and no head row. -/
theorem first_write_returns_conflict :
    (create_entity (fun s => s.length) "T0" Store.empty c1_request).1
      = .httpError 409 "Concurrent modification detected"
    ∧ (create_entity (fun s => s.length) "T0" Store.empty c1_request).2.2
      = [Event.blobWrite "Q99999" 1 "pending", Event.insertRevision 1 1,
         Event.casHead 1 0 1]
    ∧ ((create_entity (fun s => s.length) "T0" Store.empty c1_request).2.1).entity_head = []
    ∧ alist_get ((create_entity (fun s => s.length) "T0" Store.empty c1_request).2.1).blobs
        ("Q99999", 1) ≠ none := by
  refine ⟨by decide, by decide, by decide, by decide⟩

/-- C3: the CAS head update succeeds precisely when the stored head revision
id equals `expected_head`; on failure the store is untouched; after a
successful CAS that moved the head away from `expected_head`, a second CAS
against the same expected head fails; a CAS against an absent head row
fails and leaves the store untouched; and the pipeline surfaces a failed
CAS as HTTP 409 (`create_entity_core` reaches its CAS with a failing
precondition exactly when the entity has no head row, and then returns 409). -/
theorem cas_update_head_spec (st stN stQ : Store) (eid expected new_head new2 eidN : Nat)
    (row : HeadRow)
    (sp lk ar dg mp dl rd sp2 lk2 ar2 dg2 mp2 dl2 rd2 spN lkN arN dgN mpN dlN rdN : Bool)
    (hashFn : String → Nat) (now eQ : String) (iQ : Nat) (req : EntityCreateRequest)
    (hrow : alist_get st.entity_head eid = some row)
    (hnoneN : alist_get stN.entity_head eidN = none)
    (hnoneQ : alist_get stQ.entity_head iQ = none)
    (hblobQ : read_revision stQ eQ 0 = none) :
    ((cas_update_head_with_status st eid expected new_head sp lk ar dg mp dl rd).1 = true
      ↔ row.head_revision_id = expected)
    ∧ ((cas_update_head_with_status st eid expected new_head sp lk ar dg mp dl rd).1 = false
      → (cas_update_head_with_status st eid expected new_head sp lk ar dg mp dl rd).2 = st)
    ∧ (row.head_revision_id = expected → new_head ≠ expected →
        (cas_update_head_with_status
          (cas_update_head_with_status st eid expected new_head sp lk ar dg mp dl rd).2
          eid expected new2 sp2 lk2 ar2 dg2 mp2 dl2 rd2).1 = false)
    ∧ ((cas_update_head_with_status stN eidN expected new_head spN lkN arN dgN mpN dlN rdN).1 = false
      ∧ (cas_update_head_with_status stN eidN expected new_head spN lkN arN dgN mpN dlN rdN).2 = stN)
    ∧ ((create_entity_core hashFn now stQ req eQ iQ).1
        = .httpError 409 "Concurrent modification detected") := by
  refine ⟨?_, ?_, ?_, ?_, ?_⟩
  · by_cases h : row.head_revision_id = expected <;>
      simp [cas_update_head_with_status, hrow, h]
  · by_cases h : row.head_revision_id = expected <;>
      simp [cas_update_head_with_status, hrow, h]
  · intro he hne
    simp only [cas_update_head_with_status, hrow, he, if_pos rfl]
    simp [alist_get_put_self, hne]
  · simp [cas_update_head_with_status, hnoneN]
  · exact core_no_head_row_409 hashFn now stQ req eQ iQ hnoneQ hblobQ

/-- Fixture: a head row at revision 3 for the CAS witness. -/
def c3_row : HeadRow :=
  { head_revision_id := 3, is_semi_protected := false, is_locked := false,
    is_archived := false, is_dangling := false, is_mass_edit_protected := false,
    is_deleted := false, is_redirect := false, redirects_to := none }

/-- Fixture: store holding one entity (internal id 7) at head revision 3. -/
def c3_store : Store :=
  { id_mapping := [("Q7", 7)], entity_head := [(7, c3_row)],
    entity_revisions := [], entity_redirects := [], blobs := [] }

/-- Fixture: a minimal create request for the CAS pipeline-surfacing case. -/
def c3_request : EntityCreateRequest :=
  { data := .obj [("id", .str "Q1")] }

theorem cas_update_head_spec_witness :
    ((cas_update_head_with_status c3_store 7 3 4 false false false false false false false).1 = true
      ↔ c3_row.head_revision_id = 3)
    ∧ ((cas_update_head_with_status c3_store 7 3 4 false false false false false false false).1 = false
      → (cas_update_head_with_status c3_store 7 3 4 false false false false false false false).2 = c3_store)
    ∧ (c3_row.head_revision_id = 3 → 4 ≠ 3 →
        (cas_update_head_with_status
          (cas_update_head_with_status c3_store 7 3 4 false false false false false false false).2
          7 3 5 false false false false false false false).1 = false)
    ∧ ((cas_update_head_with_status Store.empty 1 3 4 false false false false false false false).1 = false
      ∧ (cas_update_head_with_status Store.empty 1 3 4 false false false false false false false).2 = Store.empty)
    ∧ ((create_entity_core (fun s => s.length) "now" Store.empty c3_request "Q1" 2).1
        = .httpError 409 "Concurrent modification detected") :=
  cas_update_head_spec c3_store Store.empty Store.empty 7 3 4 5 1 c3_row
    false false false false false false false false false false false false false false
    false false false false false false false
    (fun s => s.length) "now" "Q1" 2 c3_request
    (by decide) (by decide) (by decide) (by decide)

/-- C2: when an existing entity has a readable head blob whose stored
`content_hash` equals the canonical-JSON hash of the submitted document, the
write returns the existing head revision id, the store is unchanged (no blob
write, no revision insert, no head movement), and no side-effect events
occur. -/
theorem idempotent_write_returns_existing (hashFn : String → Nat) (now : String)
    (st : Store) (req : EntityCreateRequest) (entity_id : String) (internal_id h : Nat)
    (blob : Json)
    (hid : req.data.getStr "id" = some entity_id)
    (hne : entity_id ≠ "")
    (hres : resolve_id st entity_id = some internal_id)
    (hdel : is_entity_deleted st internal_id = false)
    (hhead : get_head st internal_id = h)
    (hblob : read_revision st entity_id h = some blob)
    (hhash : blob.get "content_hash" = some (.num (Int.ofNat (hashFn (canonical_json req.data))))) :
    create_entity hashFn now st req =
      (.ok { id := entity_id, revision_id := h, data := req.data,
             is_semi_protected := truthyOpt (blob.get "is_semi_protected"),
             is_locked := truthyOpt (blob.get "is_locked"),
             is_archived := truthyOpt (blob.get "is_archived"),
             is_dangling := truthyOpt (blob.get "is_dangling"),
             is_mass_edit_protected := false }, st, []) := by
  simp [create_entity, create_entity_core, hid, hne, hres, hdel, hhead, hblob, hhash]

/-- Fixture: head blob storing content hash 12 (the canonical-JSON length of
the witness request document, with the length function as stand-in hash). -/
def c2_blob : Json :=
  .obj [("content_hash", .num 12)]

/-- Fixture: store with entity Q7 (internal id 7) at head revision 3 whose
head blob is `c2_blob`. -/
def c2_store : Store :=
  { id_mapping := [("Q7", 7)],
    entity_head := [(7,
      { head_revision_id := 3, is_semi_protected := false, is_locked := false,
        is_archived := false, is_dangling := false, is_mass_edit_protected := false,
        is_deleted := false, is_redirect := false, redirects_to := none })],
    entity_revisions := [], entity_redirects := [],
    blobs := [(("Q7", 3), { data := c2_blob, publication_state := "published" })] }

/-- Fixture: the replayed request for the idempotency witness. -/
def c2_request : EntityCreateRequest :=
  { data := .obj [("id", .str "Q7")] }

theorem idempotent_write_returns_existing_witness :
    create_entity (fun s => s.length) "T1" c2_store c2_request =
      (.ok { id := "Q7", revision_id := 3, data := c2_request.data,
             is_semi_protected := truthyOpt (c2_blob.get "is_semi_protected"),
             is_locked := truthyOpt (c2_blob.get "is_locked"),
             is_archived := truthyOpt (c2_blob.get "is_archived"),
             is_dangling := truthyOpt (c2_blob.get "is_dangling"),
             is_mass_edit_protected := false }, c2_store, []) :=
  idempotent_write_returns_existing (fun s => s.length) "T1" c2_store c2_request
    "Q7" 7 3 c2_blob (by decide) (by decide) (by decide) (by decide) (by decide)
    (by decide) (by decide)

/-- The 4.D admission rules exactly as the spec words them: an ordered rule
list, evaluated first match wins. Written from the spec for comparison with
the code-derived `protection_denial`. -/
def spec_admission_rules (current : Json) (request : EntityCreateRequest) :
    List (Bool × String) :=
  [(truthyOpt (current.get "is_archived"),
    "Item is archived and cannot be edited"),
   (truthyOpt (current.get "is_locked"),
    "Item is locked from all edits"),
   (truthyOpt (current.get "is_mass_edit_protected") && request.is_mass_edit,
    "Mass edits blocked on this item"),
   (truthyOpt (current.get "is_semi_protected") && request.is_not_autoconfirmed_user,
    "Semi-protected items cannot be edited by new or unconfirmed users")]

/-- First matching rule wins; otherwise allow. -/
def spec_admission (current : Json) (request : EntityCreateRequest) : Option String :=
  (spec_admission_rules current request).findSome?
    (fun rule => if rule.1 then some rule.2 else none)

/-- Whether a handler outcome is a protection denial (HTTP 403). -/
def is_protection_denial {A : Type} : ApiResult A → Bool
  | .httpError 403 _ => true
  | _ => false

theorem register_entity_preserves_head (st : Store) (e : String) (i j : Nat) :
    get_head (register_entity st e i) j = get_head st j := rfl

theorem register_entity_preserves_blobs (st : Store) (e : String) (i : Nat)
    (e2 : String) (r : Nat) :
    read_revision (register_entity st e i) e2 r = read_revision st e2 r := rfl

/-- C5: the protection block of `create_entity` equals the spec\'s ordered
first-match-wins rule list; for an existing entity with a readable head blob
and a content change, a denial surfaces as HTTP 403 carrying the matching
reason (and nothing is written); and for a new entity (no head row) no
protection denial is ever produced. -/
theorem protection_admission_order
    (curA : Json) (reqA : EntityCreateRequest)
    (current : Json) (req reqN : EntityCreateRequest)
    (hashFn : String → Nat) (now : String) (st stN : Store)
    (entity_id entity_idN : String) (internal_id h : Nat) (reason : String)
    (hid : req.data.getStr "id" = some entity_id)
    (hne : entity_id ≠ "")
    (hres : resolve_id st entity_id = some internal_id)
    (hdel : is_entity_deleted st internal_id = false)
    (hhead : get_head st internal_id = h)
    (hblob : read_revision st entity_id h = some current)
    (hnoidem : current.get "content_hash"
      ≠ some (.num ((hashFn (canonical_json req.data) : Int))))
    (hdeny : protection_denial current req = some reason)
    (hidN : reqN.data.getStr "id" = some entity_idN)
    (hneN : entity_idN ≠ "")
    (hresN : resolve_id stN entity_idN = none)
    (hheadN : alist_get stN.entity_head (generate_ulid_flake stN) = none)
    (hblobN : read_revision stN entity_idN 0 = none) :
    protection_denial curA reqA = spec_admission curA reqA
    ∧ create_entity hashFn now st req = (.httpError 403 reason, st, [])
    ∧ is_protection_denial (create_entity hashFn now stN reqN).1 = false := by
  refine ⟨?_, ?_, ?_⟩
  · simp only [protection_denial, spec_admission, spec_admission_rules, List.findSome?]
    by_cases h1 : truthyOpt (curA.get "is_archived") <;>
      by_cases h2 : truthyOpt (curA.get "is_locked") <;>
        by_cases h3 : truthyOpt (curA.get "is_mass_edit_protected") && reqA.is_mass_edit <;>
          by_cases h4 : truthyOpt (curA.get "is_semi_protected") && reqA.is_not_autoconfirmed_user <;>
            simp [h1, h2, h3, h4]
  · simp [create_entity, create_entity_core, hid, hne, hres, hdel, hhead, hblob, hdeny]
    rw [if_neg hnoidem]
  · simp only [create_entity, hidN, Option.getD, if_neg hneN, hresN]
    have h409 := core_no_head_row_409 hashFn now
      (register_entity stN entity_idN (generate_ulid_flake stN)) reqN entity_idN
      (generate_ulid_flake stN) hheadN hblobN
    rw [h409]
    rfl

/-- Fixture: a head blob that is both archived and locked (rule order). -/
def c5_currentA : Json :=
  .obj [("is_archived", .bool true), ("is_locked", .bool true)]

/-- Fixture: a locked head blob. -/
def c5_current : Json :=
  .obj [("is_locked", .bool true)]

/-- Fixture: admission request for the rule-order conjunct. -/
def c5_requestA : EntityCreateRequest :=
  { data := .obj [] }

/-- Fixture: the denied write request. -/
def c5_request : EntityCreateRequest :=
  { data := .obj [("id", .str "Q7")] }

/-- Fixture: a request for a brand-new entity id. -/
def c5_requestN : EntityCreateRequest :=
  { data := .obj [("id", .str "Q77777")] }

/-- Fixture: store with entity Q7 at head revision 3 whose head blob is
locked. -/
def c5_store : Store :=
  { id_mapping := [("Q7", 7)],
    entity_head := [(7,
      { head_revision_id := 3, is_semi_protected := false, is_locked := false,
        is_archived := false, is_dangling := false, is_mass_edit_protected := false,
        is_deleted := false, is_redirect := false, redirects_to := none })],
    entity_revisions := [], entity_redirects := [],
    blobs := [(("Q7", 3), { data := c5_current, publication_state := "published" })] }

theorem protection_admission_order_witness :
    protection_denial c5_currentA c5_requestA = spec_admission c5_currentA c5_requestA
    ∧ create_entity (fun s => s.length) "T2" c5_store c5_request
      = (.httpError 403 "Item is locked from all edits", c5_store, [])
    ∧ is_protection_denial (create_entity (fun s => s.length) "T2" Store.empty c5_requestN).1
      = false :=
  protection_admission_order c5_currentA c5_requestA c5_current c5_request c5_requestN
    (fun s => s.length) "T2" c5_store Store.empty "Q7" "Q77777" 7 3
    "Item is locked from all edits"
    (by decide) (by decide) (by decide) (by decide) (by decide) (by decide)
    (by decide) (by decide) (by decide) (by decide) (by decide) (by decide)
    (by decide)

/-- C10: the protection step reads flags from the head revision blob, and
when that read fails with a non-HTTP error every check is silently skipped:
an existing entity whose head row may carry any protection flags (here
unconstrained: the row is arbitrary apart from not being hard-deleted) but
whose head blob is unreadable admits the write, which lands as revision
h + 1 with HTTP 200. -/
theorem blob_read_failure_skips_protection
    (hashFn : String → Nat) (now : String) (st : Store) (req : EntityCreateRequest)
    (entity_id : String) (internal_id h : Nat) (row : HeadRow)
    (hid : req.data.getStr "id" = some entity_id)
    (hne : entity_id ≠ "")
    (hres : resolve_id st entity_id = some internal_id)
    (hrow : alist_get st.entity_head internal_id = some row)
    (hdel : row.is_deleted = false)
    (hh : row.head_revision_id = h)
    (h0 : h ≠ 0)
    (hblob : read_revision st entity_id h = none) :
    (create_entity hashFn now st req).1
      = .ok { id := entity_id, revision_id := h + 1, data := req.data,
              is_semi_protected := req.is_semi_protected,
              is_locked := req.is_locked,
              is_archived := req.is_archived,
              is_dangling := req.is_dangling,
              is_mass_edit_protected := req.is_mass_edit_protected } := by
  have hdel2 : is_entity_deleted st internal_id = false := by
    simp [is_entity_deleted, get_head_row, hrow, hdel]
  have hgh : get_head st internal_id = h := by
    simp [get_head, get_head_row, hrow, hh]
  simp [create_entity, create_entity_core, hid, hne, hres, hdel2, hgh, hblob, h0,
    cas_update_head_with_status, insert_revision_entity_head,
    write_revision_entity_head, hrow, hh]

/-- Fixture: a fully protected head row (locked, archived, semi-protected,
mass-edit-protected) whose blob will be missing. -/
def c10_row : HeadRow :=
  { head_revision_id := 3, is_semi_protected := true, is_locked := true,
    is_archived := true, is_dangling := false, is_mass_edit_protected := true,
    is_deleted := false, is_redirect := false, redirects_to := none }

/-- Fixture: store for Q8 whose head row is protected but whose head blob is
absent from the bucket. -/
def c10_store : Store :=
  { id_mapping := [("Q8", 8)], entity_head := [(8, c10_row)],
    entity_revisions := [], entity_redirects := [], blobs := [] }

/-- Fixture: a plain write request against Q8. -/
def c10_request : EntityCreateRequest :=
  { data := .obj [("id", .str "Q8")] }

theorem blob_read_failure_skips_protection_witness :
    (create_entity (fun s => s.length) "T3" c10_store c10_request).1
      = .ok { id := "Q8", revision_id := 4, data := c10_request.data,
              is_semi_protected := c10_request.is_semi_protected,
              is_locked := c10_request.is_locked,
              is_archived := c10_request.is_archived,
              is_dangling := c10_request.is_dangling,
              is_mass_edit_protected := c10_request.is_mass_edit_protected } :=
  blob_read_failure_skips_protection (fun s => s.length) "T3" c10_store c10_request
    "Q8" 8 3 c10_row (by decide) (by decide) (by decide) (by decide) (by decide)
    (by decide) (by decide) (by decide)

theorem insert_revision_blobs (st : Store) (i r : Nat) (m : Bool) (t : String) :
    (insert_revision st i r m t).blobs = st.blobs := by
  unfold insert_revision
  split <;> rfl

theorem cas_blobs (st : Store) (eid e n : Nat) (f1 f2 f3 f4 f5 f6 f7 : Bool) :
    (cas_update_head_with_status st eid e n f1 f2 f3 f4 f5 f6 f7).2.blobs = st.blobs := by
  unfold cas_update_head_with_status
  split
  · split <;> rfl
  · rfl

theorem cas_entity_revisions (st : Store) (eid e n : Nat) (f1 f2 f3 f4 f5 f6 f7 : Bool) :
    (cas_update_head_with_status st eid e n f1 f2 f3 f4 f5 f6 f7).2.entity_revisions
      = st.entity_revisions := by
  unfold cas_update_head_with_status
  split
  · split <;> rfl
  · rfl

theorem mark_published_entity_revisions (st : Store) (e : String) (r : Nat) (p : String) :
    (mark_published st e r p).entity_revisions = st.entity_revisions := by
  unfold mark_published
  split <;> rfl

theorem write_revision_entity_revisions (st : Store) (e : String) (r : Nat)
    (d : Json) (p : String) :
    (write_revision st e r d p).entity_revisions = st.entity_revisions := rfl

theorem insert_revision_present (st : Store) (i r : Nat) (m : Bool) (t : String) :
    alist_get (insert_revision st i r m t).entity_revisions (i, r) ≠ none := by
  unfold insert_revision
  split
  · next h =>
      intro hc
      rw [hc] at h
      simp at h
  · simp [alist_get_put_self]

theorem mark_published_blob_present (st : Store) (e : String) (r : Nat) (p : String)
    (h : alist_get st.blobs (e, r) ≠ none) :
    alist_get (mark_published st e r p).blobs (e, r) ≠ none := by
  unfold mark_published
  rcases hb : alist_get st.blobs (e, r) with _ | blob
  · exact absurd hb h
  · simp [hb, alist_get_put_self]

/-- One-run case analysis of `create_entity_core`: either no side effect
happened (idempotent return or protection denial), or the pipeline emitted
exactly blob write, revision insert and CAS, in this order, followed by
mark-published exactly when the CAS succeeded; a successful run names the
new revision in its response and leaves both the blob and the revision row
present. -/
theorem core_cases (hashFn : String → Nat) (now : String) (st : Store)
    (req : EntityCreateRequest) (e : String) (i : Nat) :
    ((create_entity_core hashFn now st req e i).2.2 = []) ∨
    (∃ n,
      ((create_entity_core hashFn now st req e i).2.2
          = [.blobWrite e n "pending", .insertRevision i n,
             .casHead i (get_head st i) n]
        ∧ ∀ r, (create_entity_core hashFn now st req e i).1 ≠ .ok r) ∨
      ((create_entity_core hashFn now st req e i).2.2
          = [.blobWrite e n "pending", .insertRevision i n,
             .casHead i (get_head st i) n, .markPublished e n]
        ∧ (∃ resp, (create_entity_core hashFn now st req e i).1 = .ok resp
            ∧ resp.revision_id = n ∧ resp.id = e)
        ∧ alist_get ((create_entity_core hashFn now st req e i).2.1).blobs (e, n) ≠ none
        ∧ alist_get ((create_entity_core hashFn now st req e i).2.1).entity_revisions (i, n) ≠ none)) := by
  simp only [create_entity_core]
  split
  · exact Or.inl rfl
  · split
    · exact Or.inl rfl
    · split <;> split
      · right
        refine ⟨_, Or.inr ⟨by simp, ⟨_, rfl, rfl, rfl⟩, ?_, ?_⟩⟩
        · apply mark_published_blob_present
          rw [cas_blobs, insert_revision_blobs]
          unfold write_revision
          simp [alist_get_put_self]
        · rw [mark_published_entity_revisions, cas_entity_revisions]
          apply insert_revision_present
      · right
        refine ⟨_, Or.inl ⟨rfl, ?_⟩⟩
        intro r hc
        exact ApiResult.noConfusion hc
      · right
        refine ⟨_, Or.inr ⟨by simp, ⟨_, rfl, rfl, rfl⟩, ?_, ?_⟩⟩
        · apply mark_published_blob_present
          rw [cas_blobs, insert_revision_blobs]
          unfold write_revision
          simp [alist_get_put_self]
        · rw [mark_published_entity_revisions, cas_entity_revisions]
          apply insert_revision_present
      · right
        refine ⟨_, Or.inl ⟨rfl, ?_⟩⟩
        intro r hc
        exact ApiResult.noConfusion hc

/-- One-run case analysis of `create_entity` at the handler level: either no
side effect happened, or the trace is blob write, revision insert, CAS, and
(on success only) mark-published, in this order, with a successful response
naming the written revision, whose blob and revision row are present in the
post state. -/
theorem create_entity_cases (hashFn : String → Nat) (now : String) (st : Store)
    (req : EntityCreateRequest) :
    ((create_entity hashFn now st req).2.2 = []) ∨
    (∃ i h n,
      ((create_entity hashFn now st req).2.2
          = [.blobWrite ((req.data.getStr "id").getD "") n "pending",
             .insertRevision i n, .casHead i h n]
        ∧ ∀ r, (create_entity hashFn now st req).1 ≠ .ok r) ∨
      ((create_entity hashFn now st req).2.2
          = [.blobWrite ((req.data.getStr "id").getD "") n "pending",
             .insertRevision i n, .casHead i h n,
             .markPublished ((req.data.getStr "id").getD "") n]
        ∧ (∃ resp, (create_entity hashFn now st req).1 = .ok resp
            ∧ resp.revision_id = n ∧ resp.id = (req.data.getStr "id").getD "")
        ∧ alist_get ((create_entity hashFn now st req).2.1).blobs
            ((req.data.getStr "id").getD "", n) ≠ none
        ∧ alist_get ((create_entity hashFn now st req).2.1).entity_revisions (i, n) ≠ none)) := by
  simp only [create_entity]
  split
  · exact Or.inl rfl
  · split
    · rcases core_cases hashFn now
        (register_entity st ((req.data.getStr "id").getD "") (generate_ulid_flake st))
        req ((req.data.getStr "id").getD "") (generate_ulid_flake st) with h | ⟨n, hc⟩
      · exact Or.inl h
      · exact Or.inr ⟨_, _, n, hc⟩
    · split
      · exact Or.inl rfl
      · next internal_id _ _ =>
          rcases core_cases hashFn now st req ((req.data.getStr "id").getD "")
            internal_id with h | ⟨n, hc⟩
          · exact Or.inl h
          · exact Or.inr ⟨_, _, n, hc⟩

/-- C4: in every run of the write pipeline, the pending blob write and the
revision-row insert precede the head-advance call (CAS or head insert): a
head-advance event only ever occurs at trace position 2, after the blob
write (position 0, tagged pending, same revision id) and the revision insert
(position 1, same revision id); and on a successful write the post state
contains both the blob named by the response and its revision row. -/
theorem blob_and_revision_precede_head_advance
    (hashFn : String → Nat) (now : String) (st : Store) (req : EntityCreateRequest)
    (k i expected n : Nat) (r : EntityResponse)
    (hk : ((create_entity hashFn now st req).2.2).get? k = some (.casHead i expected n)
        ∨ ((create_entity hashFn now st req).2.2).get? k = some (.insertHead i n))
    (hres : (create_entity hashFn now st req).1 = .ok r) :
    k = 2
    ∧ ((create_entity hashFn now st req).2.2).get? 0
        = some (.blobWrite ((req.data.getStr "id").getD "") n "pending")
    ∧ ((create_entity hashFn now st req).2.2).get? 1 = some (.insertRevision i n)
    ∧ alist_get ((create_entity hashFn now st req).2.1).blobs (r.id, r.revision_id) ≠ none
    ∧ alist_get ((create_entity hashFn now st req).2.1).entity_revisions (i, r.revision_id) ≠ none := by
  rcases create_entity_cases hashFn now st req with hemp | ⟨i2, h2, n2, hcase⟩
  · rw [hemp] at hk
    simp at hk
  · rcases hcase with ⟨hev, hnok⟩ | ⟨hev, ⟨resp, hok, hrev, hid2⟩, hblob, hrow⟩
    · exact absurd hres (hnok r)
    · have hresp : resp = r := by
        rw [hok] at hres
        injection hres
      rw [hev] at hk
      have hk2 : k = 2 ∧ i2 = i ∧ n2 = n := by
        rcases k with _ | _ | _ | _ | k
        · simp at hk
        · simp at hk
        · rcases hk with hk | hk
          · simp at hk
            exact ⟨rfl, hk.1, hk.2.2⟩
          · simp at hk
        · simp at hk
        · simp [List.get?] at hk
      obtain ⟨hkk, hii, hnn⟩ := hk2
      subst hkk
      subst hii
      subst hnn
      refine ⟨rfl, ?_, ?_, ?_, ?_⟩
      · rw [hev]
        rfl
      · rw [hev]
        rfl
      · rw [← hresp, hid2, hrev]
        exact hblob
      · rw [← hresp, hrev]
        exact hrow

/-- Fixture: the successful response of the ordering witness run. -/
def c4_resp : EntityResponse :=
  { id := "Q8", revision_id := 4, data := c10_request.data }

theorem blob_and_revision_precede_head_advance_witness :
    2 = 2
    ∧ ((create_entity (fun s => s.length) "T4" c10_store c10_request).2.2).get? 0
        = some (.blobWrite ((c10_request.data.getStr "id").getD "") 4 "pending")
    ∧ ((create_entity (fun s => s.length) "T4" c10_store c10_request).2.2).get? 1
        = some (.insertRevision 8 4)
    ∧ alist_get ((create_entity (fun s => s.length) "T4" c10_store c10_request).2.1).blobs
        (c4_resp.id, c4_resp.revision_id) ≠ none
    ∧ alist_get ((create_entity (fun s => s.length) "T4" c10_store c10_request).2.1).entity_revisions
        (8, c4_resp.revision_id) ≠ none :=
  blob_and_revision_precede_head_advance (fun s => s.length) "T4" c10_store c10_request
    2 8 3 4 c4_resp (Or.inl (by decide)) (by decide)

/-- Fixture: store in which Q9 has been hard-deleted: the head row carries
`is_deleted = true` at head revision 2, whose deletion-revision blob exists. -/
def c6_store : Store :=
  { id_mapping := [("Q9", 9)],
    entity_head := [(9,
      { head_revision_id := 2, is_semi_protected := false, is_locked := false,
        is_archived := false, is_dangling := false, is_mass_edit_protected := false,
        is_deleted := true, is_redirect := false, redirects_to := none })],
    entity_revisions := [((9, 1), { is_mass_edit := false, edit_type := "" }),
                         ((9, 2), { is_mass_edit := false, edit_type := "hard-delete" })],
    entity_redirects := [],
    blobs := [(("Q9", 2),
      { data := .obj [("is_deleted", .bool true), ("entity", .obj [("id", .str "Q9")])],
        publication_state := "published" })] }

/-- C6 counterexample: a further DELETE of a hard-deleted external id does
not fail with 410 gone, contradicting the claim: `delete_entity` performs no
`is_deleted` guard, so it happily appends another deletion revision and
returns 200. -/
theorem hard_deleted_delete_again_succeeds :
    (delete_entity "T5" c6_store "Q9" DeleteType.hard).1
      = .ok { id := "Q9", revision_id := 3, delete_type := DeleteType.hard,
              is_deleted := true }
    ∧ (delete_entity "T5" c6_store "Q9" DeleteType.hard).1
      ≠ .httpError 410 "Entity Q9 has been deleted" := by
  refine ⟨by decide, by decide⟩

/-- C6 amended: after a successful hard delete (head row `is_deleted` true),
every subsequent GET and POST of the external id fails with 410 gone — so
undelete through the write path is impossible — but a further DELETE is not
guarded: it succeeds and appends another deletion revision. -/
theorem hard_delete_terminal_amended
    (hashFn : String → Nat) (now : String) (st : Store) (entity_id : String)
    (req : EntityCreateRequest) (internal_id h : Nat) (row : HeadRow) (blob : Json)
    (dt : DeleteType)
    (hid : req.data.getStr "id" = some entity_id)
    (hne : entity_id ≠ "")
    (hres : resolve_id st entity_id = some internal_id)
    (hrow : alist_get st.entity_head internal_id = some row)
    (hdel : row.is_deleted = true)
    (hh : row.head_revision_id = h)
    (hblob : read_revision st entity_id h = some blob) :
    get_entity st entity_id
      = .httpError 410 ("Entity " ++ entity_id ++ " has been deleted")
    ∧ create_entity hashFn now st req
      = (.httpError 410 ("Entity " ++ entity_id ++ " has been deleted"), st, [])
    ∧ (delete_entity now st entity_id dt).1
      = .ok { id := entity_id, revision_id := h + 1, delete_type := dt,
              is_deleted := true } := by
  have hdel2 : is_entity_deleted st internal_id = true := by
    simp [is_entity_deleted, get_head_row, hrow, hdel]
  have hgh : get_head st internal_id = h := by
    simp [get_head, get_head_row, hrow, hh]
  refine ⟨?_, ?_, ?_⟩
  · simp [get_entity, hres, hdel2]
  · simp [create_entity, hid, hne, hres, hdel2]
  · cases dt <;>
      simp [delete_entity, hres, hgh, hblob, cas_update_head_with_status,
        insert_revision_entity_head, write_revision_entity_head, hrow, hh]

/-- Fixture: a write request against the hard-deleted Q9. -/
def c6_request : EntityCreateRequest :=
  { data := .obj [("id", .str "Q9")] }

theorem hard_delete_terminal_amended_witness :
    get_entity c6_store "Q9" = .httpError 410 ("Entity " ++ "Q9" ++ " has been deleted")
    ∧ create_entity (fun s => s.length) "T6" c6_store c6_request
      = (.httpError 410 ("Entity " ++ "Q9" ++ " has been deleted"), c6_store, [])
    ∧ (delete_entity "T6" c6_store "Q9" DeleteType.soft).1
      = .ok { id := "Q9", revision_id := 2 + 1, delete_type := DeleteType.soft,
              is_deleted := true } :=
  hard_delete_terminal_amended (fun s => s.length) "T6" c6_store "Q9" c6_request 9 2
    { head_revision_id := 2, is_semi_protected := false, is_locked := false,
      is_archived := false, is_dangling := false, is_mass_edit_protected := false,
      is_deleted := true, is_redirect := false, redirects_to := none }
    (.obj [("is_deleted", .bool true), ("entity", .obj [("id", .str "Q9")])])
    DeleteType.soft
    (by decide) (by decide) (by decide) (by decide) (by decide) (by decide) (by decide)

theorem resolve_id_write_revision (st : Store) (e : String) (r : Nat) (d : Json)
    (p : String) (x : String) :
    resolve_id (write_revision st e r d p) x = resolve_id st x := rfl

theorem resolve_id_insert_revision (st : Store) (i r : Nat) (m : Bool) (t : String)
    (x : String) :
    resolve_id (insert_revision st i r m t) x = resolve_id st x := by
  unfold insert_revision
  split <;> rfl

theorem insert_revision_entity_redirects (st : Store) (i r : Nat) (m : Bool) (t : String) :
    (insert_revision st i r m t).entity_redirects = st.entity_redirects := by
  unfold insert_revision
  split <;> rfl

theorem write_revision_entity_redirects (st : Store) (e : String) (r : Nat)
    (d : Json) (p : String) :
    (write_revision st e r d p).entity_redirects = st.entity_redirects := rfl

theorem write_revision_blobs (st : Store) (e : String) (r : Nat) (d : Json) (p : String) :
    (write_revision st e r d p).blobs = alist_put st.blobs (e, r)
      { data := d, publication_state := p } := rfl

/-- The revision record `create_redirect` writes: schema version, the
redirect target, and an empty entity body — and nothing else (no
`is_redirect`, no `edit_type` field). -/
def redirect_revision_record (from_id to_id : String) : Json :=
  .obj [("schema_version", .str "1.1.0"),
        ("redirects_to", .str to_id),
        ("entity", .obj
          [("id", .str from_id),
           ("type", .str "item"),
           ("labels", .obj []),
           ("descriptions", .obj []),
           ("aliases", .obj []),
           ("claims", .obj []),
           ("sitelinks", .obj [])])]

/-- Fixture: Q100 (internal 1, head 3) and Q42 (internal 2, head 5), both
live and unprotected, no redirects. -/
def c7_store : Store :=
  { id_mapping := [("Q100", 1), ("Q42", 2)],
    entity_head :=
      [(1, { head_revision_id := 3, is_semi_protected := false, is_locked := false,
             is_archived := false, is_dangling := false, is_mass_edit_protected := false,
             is_deleted := false, is_redirect := false, redirects_to := none }),
       (2, { head_revision_id := 5, is_semi_protected := false, is_locked := false,
             is_archived := false, is_dangling := false, is_mass_edit_protected := false,
             is_deleted := false, is_redirect := false, redirects_to := none })],
    entity_revisions := [], entity_redirects := [], blobs := [] }

/-- Fixture: the redirect request Q100 → Q42. -/
def c7_request : EntityRedirectRequest :=
  { redirect_from_id := "Q100", redirect_to_id := "Q42", created_by := "u" }

/-- C7 counterexample: a successful create_redirect does NOT publish the new
revision as the head of `from` — no CAS or head insert happens, so Q100's
head stays 3 while the redirect revision is 4 — and the written record
carries neither an `is_redirect` nor an `edit_type` field. -/
theorem create_redirect_no_head_publish :
    (create_redirect "T7" c7_store c7_request).1
      = .ok { redirect_from_id := "Q100", redirect_to_id := "Q42",
              created_at := "T7", revision_id := 4 }
    ∧ get_head (create_redirect "T7" c7_store c7_request).2 1 = 3
    ∧ ¬ get_head (create_redirect "T7" c7_store c7_request).2 1 = 4
    ∧ read_revision (create_redirect "T7" c7_store c7_request).2 "Q100" 4
      = some (redirect_revision_record "Q100" "Q42")
    ∧ (redirect_revision_record "Q100" "Q42").get "is_redirect" = none
    ∧ (redirect_revision_record "Q100" "Q42").get "edit_type" = none := by
  refine ⟨by decide, by decide, by decide, by decide, by decide, by decide⟩

/-- C7 amended: when no (from, to) edge is already present in the redirect
graph (a duplicate makes the plain INSERT hit the UNIQUE KEY and raise, HTTP
500), a successful create_redirect(from, to) writes a pending revision blob
on `from` at head+1 holding an empty entity body and `redirects_to = to`
(but no `is_redirect` or `edit_type` field), inserts the revision row with
`edit_type = redirect-create`, inserts the redirect edge, sets `from`\'s
head-row `redirects_to` pointer, and marks the blob published; `from`\'s
head pointer is NOT advanced (no CAS / insert-head step runs). -/
theorem create_redirect_amended
    (now from_id to_id created_by : String) (st : Store)
    (fromI toI hF hT : Nat) (rowF rowT : HeadRow)
    (hne : from_id ≠ to_id)
    (hfrom : resolve_id st from_id = some fromI)
    (hto : resolve_id st to_id = some toI)
    (hrowF : alist_get st.entity_head fromI = some rowF)
    (hredir : rowF.redirects_to = none)
    (hdelF : rowF.is_deleted = false)
    (hrowT : alist_get st.entity_head toI = some rowT)
    (hdelT : rowT.is_deleted = false)
    (hlockT : rowT.is_locked = false)
    (harchT : rowT.is_archived = false)
    (hhT : rowT.head_revision_id = hT)
    (hT0 : hT ≠ 0)
    (hhF : rowF.head_revision_id = hF)
    (hF0 : hF ≠ 0)
    (hnorow : alist_get st.entity_revisions (fromI, hF + 1) = none)
    (hnoedge : st.entity_redirects.any (fun edge =>
        edge.redirect_from_id == fromI && edge.redirect_to_id == toI) = false) :
    (create_redirect now st
        { redirect_from_id := from_id, redirect_to_id := to_id, created_by := created_by }).1
      = .ok { redirect_from_id := from_id, redirect_to_id := to_id,
              created_at := now, revision_id := hF + 1 }
    ∧ alist_get (create_redirect now st
        { redirect_from_id := from_id, redirect_to_id := to_id, created_by := created_by }).2.blobs
        (from_id, hF + 1)
      = some { data := redirect_revision_record from_id to_id,
               publication_state := "published" }
    ∧ alist_get (create_redirect now st
        { redirect_from_id := from_id, redirect_to_id := to_id, created_by := created_by }).2.entity_revisions
        (fromI, hF + 1)
      = some { is_mass_edit := false, edit_type := "redirect-create" }
    ∧ (create_redirect now st
        { redirect_from_id := from_id, redirect_to_id := to_id, created_by := created_by }).2.entity_redirects
      = st.entity_redirects
        ++ [{ redirect_from_id := fromI, redirect_to_id := toI, created_by := created_by }]
    ∧ alist_get (create_redirect now st
        { redirect_from_id := from_id, redirect_to_id := to_id, created_by := created_by }).2.entity_head
        fromI
      = some { rowF with redirects_to := some toI }
    ∧ get_head (create_redirect now st
        { redirect_from_id := from_id, redirect_to_id := to_id, created_by := created_by }).2 fromI
      = hF := by
  have hgt : get_redirect_target st from_id = none := by
    simp [get_redirect_target, hfrom, get_head_row, hrowF, hredir]
  have hdF : is_entity_deleted_ext st from_id = false := by
    simp [is_entity_deleted_ext, hfrom, is_entity_deleted, get_head_row, hrowF, hdelF]
  have hdT : is_entity_deleted_ext st to_id = false := by
    simp [is_entity_deleted_ext, hto, is_entity_deleted, get_head_row, hrowT, hdelT]
  have hlT : is_entity_locked_ext st to_id = false := by
    simp [is_entity_locked_ext, hto, is_entity_locked, get_head_row, hrowT, hlockT]
  have haT : is_entity_archived_ext st to_id = false := by
    simp [is_entity_archived_ext, hto, is_entity_archived, get_head_row, hrowT, harchT]
  have hghT : get_head_ext st to_id = hT := by
    simp [get_head_ext, hto, get_head, get_head_row, hrowT, hhT]
  have hghF : get_head_ext st from_id = hF := by
    simp [get_head_ext, hfrom, get_head, get_head_row, hrowF, hhF]
  simp only [create_redirect, if_neg hne, hgt, Option.isSome_none, Bool.false_eq_true,
    if_false, hdF, hdT, hlT, haT, Bool.or_self, hghT, if_neg hT0, hghF, if_pos hF0,
    insert_revision_ext, resolve_id_write_revision, hfrom, Option.map_some]
  simp only [create_redirect_edge, resolve_id_insert_revision, resolve_id_write_revision,
    hfrom, hto, insert_revision_entity_redirects, write_revision_entity_redirects,
    hnoedge, Bool.false_eq_true, if_false]
  simp only [set_redirect_target, resolve_id_insert_revision, resolve_id_write_revision,
    hfrom, hto]
  have hfromA : alist_get st.id_mapping from_id = some fromI := hfrom
  have htoA : alist_get st.id_mapping to_id = some toI := hto
  have hnoedgeP : ¬ ∃ x ∈ st.entity_redirects,
      x.redirect_from_id = fromI ∧ x.redirect_to_id = toI := by
    intro hc
    obtain ⟨x, hx, h1, h2⟩ := hc
    have hpx : (x.redirect_from_id == fromI && x.redirect_to_id == toI) = true := by
      rw [h1, h2]
      simp
    have hany : st.entity_redirects.any (fun edge =>
        edge.redirect_from_id == fromI && edge.redirect_to_id == toI) = true :=
      List.any_eq_true.mpr ⟨x, hx, hpx⟩
    rw [hnoedge] at hany
    exact Bool.false_ne_true hany
  simp [resolve_id, insert_revision, write_revision, mark_published, get_head,
    get_head_row, redirect_revision_record, hfromA, htoA, hnorow, hrowF, hhF,
    hnoedgeP, alist_get_put_self]

/-- Fixture: Q100\'s head row in `c7_store`. -/
def c7_rowF : HeadRow :=
  { head_revision_id := 3, is_semi_protected := false, is_locked := false,
    is_archived := false, is_dangling := false, is_mass_edit_protected := false,
    is_deleted := false, is_redirect := false, redirects_to := none }

/-- Fixture: Q42\'s head row in `c7_store`. -/
def c7_rowT : HeadRow :=
  { head_revision_id := 5, is_semi_protected := false, is_locked := false,
    is_archived := false, is_dangling := false, is_mass_edit_protected := false,
    is_deleted := false, is_redirect := false, redirects_to := none }

theorem create_redirect_amended_witness :
    (create_redirect "T8" c7_store
        { redirect_from_id := "Q100", redirect_to_id := "Q42", created_by := "u" }).1
      = .ok { redirect_from_id := "Q100", redirect_to_id := "Q42",
              created_at := "T8", revision_id := 3 + 1 }
    ∧ alist_get (create_redirect "T8" c7_store
        { redirect_from_id := "Q100", redirect_to_id := "Q42", created_by := "u" }).2.blobs
        ("Q100", 3 + 1)
      = some { data := redirect_revision_record "Q100" "Q42",
               publication_state := "published" }
    ∧ alist_get (create_redirect "T8" c7_store
        { redirect_from_id := "Q100", redirect_to_id := "Q42", created_by := "u" }).2.entity_revisions
        (1, 3 + 1)
      = some { is_mass_edit := false, edit_type := "redirect-create" }
    ∧ (create_redirect "T8" c7_store
        { redirect_from_id := "Q100", redirect_to_id := "Q42", created_by := "u" }).2.entity_redirects
      = c7_store.entity_redirects
        ++ [{ redirect_from_id := 1, redirect_to_id := 2, created_by := "u" }]
    ∧ alist_get (create_redirect "T8" c7_store
        { redirect_from_id := "Q100", redirect_to_id := "Q42", created_by := "u" }).2.entity_head 1
      = some { c7_rowF with redirects_to := some 2 }
    ∧ get_head (create_redirect "T8" c7_store
        { redirect_from_id := "Q100", redirect_to_id := "Q42", created_by := "u" }).2 1
      = 3 :=
  create_redirect_amended "T8" "Q100" "Q42" "u" c7_store 1 2 3 5 c7_rowF c7_rowT
    (by decide) (by decide) (by decide) (by decide) (by decide) (by decide)
    (by decide) (by decide) (by decide) (by decide) (by decide) (by decide)
    (by decide) (by decide) (by decide) (by decide)

/-- C9: with the converter configured from one entity and one property-shape
registry alone (no metadata directory, no redirect sources), the Turtle
output is independent of the only run-to-run varying input — the iteration
order of the Python set in `_fetch_redirects` — so two runs on identical
input produce byte-identical output. -/
theorem turtle_output_deterministic
    (reg : PropertyRegistry) (md5hex : String → String) (e : Entity)
    (ord1 ord2 : List String → List String)
    (h1 : ∀ xs, List.Perm (ord1 xs) xs)
    (h2 : ∀ xs, List.Perm (ord2 xs) xs) :
    convert_to_string { properties := reg } md5hex ord1 e
      = convert_to_string { properties := reg } md5hex ord2 e := by
  have e1 : fetch_redirects { properties := reg } ord1 e.id = [] := by
    simpa [fetch_redirects] using (h1 []).eq_nil
  have e2 : fetch_redirects { properties := reg } ord2 e.id = [] := by
    simpa [fetch_redirects] using (h2 []).eq_nil
  simp [convert_to_string, convert_to_turtle, write_redirects_section, e1, e2]

/-- Fixture: a small entity for the determinism witness. -/
def c9_entity : Entity :=
  { id := "Q1", labels := [("en", "Douglas")], descriptions := [], aliases := [],
    statements := [], sitelinks := [] }

theorem turtle_output_deterministic_witness :
    convert_to_string { properties := PropertyRegistry.mk [] } (fun s => s)
      (fun xs => xs) c9_entity
      = convert_to_string { properties := PropertyRegistry.mk [] } (fun s => s)
      (fun xs => xs.reverse) c9_entity :=
  turtle_output_deterministic (PropertyRegistry.mk []) (fun s => s) c9_entity
    (fun xs => xs) (fun xs => xs.reverse)
    (fun xs => List.Perm.refl xs) (fun xs => List.reverse_perm xs)

/-- Whether an output chunk is a value-node block header. The three
value-node writers start their block with a `wdv:`-prefixed line and every
other write of the converter starts with a different prefix, so a chunk
beginning with "wdv:" is exactly a block header line
`wdv:<hash> a wikibase:...Value ;`. -/
def chunk_is_value_node_header (l : String) : Bool :=
  "wdv:".data.isPrefixOf l.data

/-- Number of value-node block header lines in an output chunk list. -/
def value_node_header_count (chunks : List String) : Nat :=
  chunks.countP chunk_is_value_node_header

/-- The dedup-gated emission pass over a sequence of referenced value-node
ids: how many blocks get emitted, and the final bag. -/
def emit_pass (bag : HashDedupeBag) : List String → Nat × HashDedupeBag
  | [] => (0, bag)
  | h :: rest =>
      let r := already_seen bag h "wdv"
      let tail := emit_pass r.2 rest
      ((if r.1 then 0 else 1) + tail.1, tail.2)

theorem header_wdv (s : String) : chunk_is_value_node_header ("wdv:" ++ s) = true := by
  have h : ("wdv:" ++ s).data = 'w' :: 'd' :: 'v' :: ':' :: s.data := rfl
  simp [chunk_is_value_node_header, h, List.isPrefixOf]

theorem not_header_wd (s : String) : chunk_is_value_node_header ("wd:" ++ s) = false := by
  have h : ("wd:" ++ s).data = 'w' :: 'd' :: ':' :: s.data := rfl
  simp [chunk_is_value_node_header, h, List.isPrefixOf]

theorem not_header_wds (s : String) : chunk_is_value_node_header ("wds:" ++ s) = false := by
  have h : ("wds:" ++ s).data = 'w' :: 'd' :: 's' :: ':' :: s.data := rfl
  simp [chunk_is_value_node_header, h, List.isPrefixOf]

theorem not_header_wdref (s : String) : chunk_is_value_node_header ("wdref:" ++ s) = false := by
  have h : ("wdref:" ++ s).data = 'w' :: 'd' :: 'r' :: 'e' :: 'f' :: ':' :: s.data := rfl
  simp [chunk_is_value_node_header, h, List.isPrefixOf]

theorem not_header_wdno (s : String) : chunk_is_value_node_header ("wdno:" ++ s) = false := by
  have h : ("wdno:" ++ s).data = 'w' :: 'd' :: 'n' :: 'o' :: ':' :: s.data := rfl
  simp [chunk_is_value_node_header, h, List.isPrefixOf]

theorem not_header_wdt (s : String) : chunk_is_value_node_header ("wdt:" ++ s) = false := by
  have h : ("wdt:" ++ s).data = 'w' :: 'd' :: 't' :: ':' :: s.data := rfl
  simp [chunk_is_value_node_header, h, List.isPrefixOf]

theorem not_header_wdtn (s : String) : chunk_is_value_node_header ("wdtn:" ++ s) = false := by
  have h : ("wdtn:" ++ s).data = 'w' :: 'd' :: 't' :: 'n' :: ':' :: s.data := rfl
  simp [chunk_is_value_node_header, h, List.isPrefixOf]

theorem not_header_tab (s : String) : chunk_is_value_node_header ("\t" ++ s) = false := by
  have h : ("\t" ++ s).data = '\t' :: s.data := rfl
  simp [chunk_is_value_node_header, h, List.isPrefixOf]

theorem not_header_p (s : String) : chunk_is_value_node_header ("p:" ++ s) = false := by
  have h : ("p:" ++ s).data = 'p' :: ':' :: s.data := rfl
  simp [chunk_is_value_node_header, h, List.isPrefixOf]

theorem not_header_ps (s : String) : chunk_is_value_node_header ("ps:" ++ s) = false := by
  have h : ("ps:" ++ s).data = 'p' :: 's' :: ':' :: s.data := rfl
  simp [chunk_is_value_node_header, h, List.isPrefixOf]

theorem not_header_psv (s : String) : chunk_is_value_node_header ("psv:" ++ s) = false := by
  have h : ("psv:" ++ s).data = 'p' :: 's' :: 'v' :: ':' :: s.data := rfl
  simp [chunk_is_value_node_header, h, List.isPrefixOf]

theorem not_header_psn (s : String) : chunk_is_value_node_header ("psn:" ++ s) = false := by
  have h : ("psn:" ++ s).data = 'p' :: 's' :: 'n' :: ':' :: s.data := rfl
  simp [chunk_is_value_node_header, h, List.isPrefixOf]

theorem not_header_pq (s : String) : chunk_is_value_node_header ("pq:" ++ s) = false := by
  have h : ("pq:" ++ s).data = 'p' :: 'q' :: ':' :: s.data := rfl
  simp [chunk_is_value_node_header, h, List.isPrefixOf]

theorem not_header_pqv (s : String) : chunk_is_value_node_header ("pqv:" ++ s) = false := by
  have h : ("pqv:" ++ s).data = 'p' :: 'q' :: 'v' :: ':' :: s.data := rfl
  simp [chunk_is_value_node_header, h, List.isPrefixOf]

theorem not_header_pqn (s : String) : chunk_is_value_node_header ("pqn:" ++ s) = false := by
  have h : ("pqn:" ++ s).data = 'p' :: 'q' :: 'n' :: ':' :: s.data := rfl
  simp [chunk_is_value_node_header, h, List.isPrefixOf]

theorem not_header_pr (s : String) : chunk_is_value_node_header ("pr:" ++ s) = false := by
  have h : ("pr:" ++ s).data = 'p' :: 'r' :: ':' :: s.data := rfl
  simp [chunk_is_value_node_header, h, List.isPrefixOf]

theorem not_header_prv (s : String) : chunk_is_value_node_header ("prv:" ++ s) = false := by
  have h : ("prv:" ++ s).data = 'p' :: 'r' :: 'v' :: ':' :: s.data := rfl
  simp [chunk_is_value_node_header, h, List.isPrefixOf]

theorem not_header_prn (s : String) : chunk_is_value_node_header ("prn:" ++ s) = false := by
  have h : ("prn:" ++ s).data = 'p' :: 'r' :: 'n' :: ':' :: s.data := rfl
  simp [chunk_is_value_node_header, h, List.isPrefixOf]

theorem not_header_blank (s : String) : chunk_is_value_node_header ("_:" ++ s) = false := by
  have h : ("_:" ++ s).data = '_' :: ':' :: s.data := rfl
  simp [chunk_is_value_node_header, h, List.isPrefixOf]

theorem not_header_data (s : String) : chunk_is_value_node_header ("data:" ++ s) = false := by
  have h : ("data:" ++ s).data = 'd' :: 'a' :: 't' :: 'a' :: ':' :: s.data := rfl
  simp [chunk_is_value_node_header, h, List.isPrefixOf]

theorem not_header_semi (s : String) : chunk_is_value_node_header (" ;" ++ s) = false := by
  have h : (" ;" ++ s).data = ' ' :: ';' :: s.data := rfl
  simp [chunk_is_value_node_header, h, List.isPrefixOf]

theorem vnc_append (a b : List String) :
    value_node_header_count (a ++ b)
      = value_node_header_count a + value_node_header_count b := by
  simp [value_node_header_count, List.countP_append]

theorem vnc_cons (c : String) (l : List String) :
    value_node_header_count (c :: l)
      = value_node_header_count l + (if chunk_is_value_node_header c then 1 else 0) := by
  simp [value_node_header_count, List.countP_cons]

theorem vnc_flatten_zero {α : Type} (f : α → List String) (xs : List α)
    (h : ∀ x ∈ xs, value_node_header_count (f x) = 0) :
    value_node_header_count ((xs.map f).flatten) = 0 := by
  induction xs with
  | nil => simp [value_node_header_count]
  | cons x rest ih =>
      simp only [List.map_cons, List.flatten_cons, vnc_append]
      rw [h x (List.mem_cons_self x rest), ih (fun y hy => h y (List.mem_cons_of_mem x hy))]

theorem not_header_cons (c : Char) (rest : List Char) (l : String)
    (hd : l.data = c :: rest) (hc : ("w" == String.mk [c]) = false) :
    chunk_is_value_node_header l = false := by
  have hcc : ('w' == c) = false := by
    by_cases h : 'w' = c
    · subst h
      simp at hc
    · simp [h]
  simp [chunk_is_value_node_header, hd, List.isPrefixOf, hcc]

theorem vnc_block (hd : String) (body : List String)
    (h1 : chunk_is_value_node_header hd = true)
    (h2 : ∀ c ∈ body, chunk_is_value_node_header c = false) :
    value_node_header_count (hd :: body) = 1 := by
  simp only [value_node_header_count, List.countP_cons, h1, if_pos]
  have : body.countP chunk_is_value_node_header = 0 := by
    rw [List.countP_eq_zero]
    intro c hc
    simp [h2 c hc]
  omega

theorem count_time_chunks (value_id v cal : String) (tz : Int) (prec : Nat) :
    value_node_header_count (time_value_node_chunks value_id v tz prec cal) = 1 := by
  simp only [time_value_node_chunks]
  apply vnc_block
  · rw [String.append_assoc]
    exact header_wdv _
  · intro c hc
    simp only [List.mem_cons, List.not_mem_nil, or_false] at hc
    rcases hc with rfl | rfl | rfl | rfl <;>
      exact not_header_cons '\t' _ _ rfl (by decide)

theorem count_globe_chunks (value_id lat lon prec gl : String) :
    value_node_header_count (globe_value_node_chunks value_id lat lon prec gl) = 1 := by
  simp only [globe_value_node_chunks]
  apply vnc_block
  · rw [String.append_assoc]
    exact header_wdv _
  · intro c hc
    simp only [List.mem_cons, List.not_mem_nil, or_false] at hc
    rcases hc with rfl | rfl | rfl | rfl <;>
      exact not_header_cons '\t' _ _ rfl (by decide)

theorem count_quantity_chunks (value_id v unit : String) (ub lb : Option String) :
    value_node_header_count (quantity_value_node_chunks value_id v unit ub lb) = 1 := by
  simp only [quantity_value_node_chunks]
  by_cases hu : opt_truthy ub <;> by_cases hl : opt_truthy lb <;>
    simp only [hu, hl, if_true, if_false, Bool.not_true, Bool.not_false,
      ite_true, ite_false, List.cons_append, List.nil_append, List.append_assoc] <;>
    · apply vnc_block
      · rw [String.append_assoc]
        exact header_wdv _
      · intro c hc
        simp at hc
        first
          | (rcases hc with rfl | rfl | rfl | rfl | rfl | rfl <;>
               first
                 | exact not_header_cons ' ' _ _ rfl (by decide)
                 | exact not_header_cons '\t' _ _ rfl (by decide))
          | (rcases hc with rfl | rfl | rfl | rfl | rfl <;>
               first
                 | exact not_header_cons ' ' _ _ rfl (by decide)
                 | exact not_header_cons '\t' _ _ rfl (by decide))
          | (rcases hc with rfl | rfl | rfl | rfl <;>
               first
                 | exact not_header_cons ' ' _ _ rfl (by decide)
                 | exact not_header_cons '\t' _ _ rfl (by decide))
          | (rcases hc with rfl | rfl | rfl <;>
               first
                 | exact not_header_cons ' ' _ _ rfl (by decide)
                 | exact not_header_cons '\t' _ _ rfl (by decide))

theorem write_value_node_spec (value_id : String) (v : RdfValue) (bag : HashDedupeBag)
    (hv : needs_value_node v = true) :
    (write_value_node value_id v (some bag)).2 = some (already_seen bag value_id "wdv").2
    ∧ value_node_header_count (write_value_node value_id v (some bag)).1
      = (if (already_seen bag value_id "wdv").1 then 0 else 1) := by
  unfold write_value_node dedupe_gate
  by_cases hseen : (already_seen bag value_id "wdv").1 <;>
    simp only [hseen, if_true, if_false, ite_true, ite_false]
  · exact ⟨by simp, by simp [value_node_header_count]⟩
  · cases v with
    | time a tz b c prec cal => exact ⟨by simp, by simp [count_time_chunks]⟩
    | quantity a u ub lb => exact ⟨by simp, by simp [count_quantity_chunks]⟩
    | globe la lo pr g => exact ⟨by simp, by simp [count_globe_chunks]⟩
    | entity a => exact absurd hv (by simp [needs_value_node, RdfValue.kind])
    | string a => exact absurd hv (by simp [needs_value_node, RdfValue.kind])
    | monolingual a b => exact absurd hv (by simp [needs_value_node, RdfValue.kind])
    | external_id a => exact absurd hv (by simp [needs_value_node, RdfValue.kind])
    | commons_media a => exact absurd hv (by simp [needs_value_node, RdfValue.kind])
    | geo_shape a => exact absurd hv (by simp [needs_value_node, RdfValue.kind])
    | url a => exact absurd hv (by simp [needs_value_node, RdfValue.kind])
    | novalue => exact absurd hv (by simp [needs_value_node, RdfValue.kind])
    | somevalue => exact absurd hv (by simp [needs_value_node, RdfValue.kind])

theorem emit_pass_append (bag : HashDedupeBag) (xs ys : List String) :
    emit_pass bag (xs ++ ys)
      = ((emit_pass bag xs).1 + (emit_pass (emit_pass bag xs).2 ys).1,
         (emit_pass (emit_pass bag xs).2 ys).2) := by
  induction xs generalizing bag with
  | nil => simp [emit_pass]
  | cons h t ih =>
      simp only [List.cons_append, emit_pass, List.append_eq]
      rw [ih]
      simp [Nat.add_assoc]

/-- The value-node ids referenced by a qualifier list, in emission order. -/
def qualifier_refs (md5hex : String → String) (qs : List Qualifier) : List String :=
  (qs.map (fun q =>
    if needs_value_node q.value then [generate_value_node_uri md5hex q.value] else [])).flatten

/-- The value-node ids referenced by the snaks of one reference. -/
def snak_refs (md5hex : String → String) (snaks : List ReferenceValue) : List String :=
  (snaks.map (fun sn =>
    if needs_value_node sn.value then [generate_value_node_uri md5hex sn.value] else [])).flatten

/-- The value-node ids referenced by a reference list. -/
def reference_refs (md5hex : String → String) (refs : List Reference) : List String :=
  (refs.map (fun r => snak_refs md5hex r.snaks)).flatten

/-- The value-node ids referenced by one statement, in emission order. -/
def statement_refs (md5hex : String → String) (stmt : Statement) : List String :=
  (if needs_value_node stmt.value then [generate_value_node_uri md5hex stmt.value] else [])
  ++ qualifier_refs md5hex stmt.qualifiers
  ++ reference_refs md5hex stmt.references

theorem value_node_refs_eq (md5hex : String → String) (e : Entity) :
    value_node_refs md5hex e = (e.statements.map (statement_refs md5hex)).flatten := rfl

theorem qualifier_refs_cons (md5hex : String → String) (q : Qualifier) (rest : List Qualifier) :
    qualifier_refs md5hex (q :: rest)
      = (if needs_value_node q.value then [generate_value_node_uri md5hex q.value] else [])
        ++ qualifier_refs md5hex rest := by
  simp [qualifier_refs]

theorem write_qualifiers_spec (md5hex : String → String) (stmt_uri : String)
    (shape : PropertyShape) (bag : HashDedupeBag) (qs : List Qualifier)
    (hsu : ∀ s, chunk_is_value_node_header (stmt_uri ++ s) = false) :
    (write_qualifiers md5hex stmt_uri shape (some bag) qs).2
      = some (emit_pass bag (qualifier_refs md5hex qs)).2
    ∧ value_node_header_count (write_qualifiers md5hex stmt_uri shape (some bag) qs).1
      = (emit_pass bag (qualifier_refs md5hex qs)).1 := by
  induction qs generalizing bag with
  | nil => simp [write_qualifiers, qualifier_refs, emit_pass, value_node_header_count]
  | cons q rest ih =>
      have hline : ∀ t : String,
          value_node_header_count [stmt_uri ++ t] = 0 := by
        intro t
        simp only [value_node_header_count, List.countP_cons, List.countP_nil]
        rw [hsu]
        rfl
      by_cases hq : needs_value_node q.value
      · obtain ⟨hb, hc⟩ :=
          write_value_node_spec (generate_value_node_uri md5hex q.value) q.value bag hq
        obtain ⟨ih1, ih2⟩ :=
          ih (already_seen bag (generate_value_node_uri md5hex q.value) "wdv").2
        rw [qualifier_refs_cons]
        simp only [write_qualifiers, hq, if_true, ite_true, hb,
          List.singleton_append, emit_pass, String.append_assoc]
        refine ⟨ih1, ?_⟩
        rw [List.cons_append, vnc_cons, vnc_append, hc, ih2]
        simp only [hsu, Bool.false_eq_true, if_false]
        omega
      · have hq2 : needs_value_node q.value = false := by
          simpa using hq
        obtain ⟨ih1, ih2⟩ := ih bag
        rw [qualifier_refs_cons]
        simp only [write_qualifiers, hq2, if_false, ite_false, Bool.false_eq_true,
          List.nil_append, String.append_assoc]
        refine ⟨ih1, ?_⟩
        rw [vnc_append, hline, ih2]
        omega

theorem snak_refs_cons (md5hex : String → String) (sn : ReferenceValue)
    (rest : List ReferenceValue) :
    snak_refs md5hex (sn :: rest)
      = (if needs_value_node sn.value then [generate_value_node_uri md5hex sn.value] else [])
        ++ snak_refs md5hex rest := by
  simp [snak_refs]

theorem write_reference_snaks_spec (md5hex : String → String) (ref_uri : String)
    (registry : PropertyRegistry) (bag : HashDedupeBag) (snaks : List ReferenceValue)
    (hru : ∀ s, chunk_is_value_node_header (ref_uri ++ s) = false) :
    (write_reference_snaks md5hex ref_uri registry (some bag) snaks).2
      = some (emit_pass bag (snak_refs md5hex snaks)).2
    ∧ value_node_header_count (write_reference_snaks md5hex ref_uri registry (some bag) snaks).1
      = (emit_pass bag (snak_refs md5hex snaks)).1 := by
  induction snaks generalizing bag with
  | nil => simp [write_reference_snaks, snak_refs, emit_pass, value_node_header_count]
  | cons sn rest ih =>
      have hline : ∀ t : String,
          value_node_header_count [ref_uri ++ t] = 0 := by
        intro t
        simp only [value_node_header_count, List.countP_cons, List.countP_nil]
        rw [hru]
        rfl
      by_cases hq : needs_value_node sn.value
      · obtain ⟨hb, hc⟩ :=
          write_value_node_spec (generate_value_node_uri md5hex sn.value) sn.value bag hq
        obtain ⟨ih1, ih2⟩ :=
          ih (already_seen bag (generate_value_node_uri md5hex sn.value) "wdv").2
        rw [snak_refs_cons]
        simp only [write_reference_snaks, hq, if_true, ite_true, hb,
          List.singleton_append, emit_pass, String.append_assoc]
        refine ⟨ih1, ?_⟩
        rw [List.cons_append, vnc_cons, vnc_append, hc, ih2]
        simp only [hru, Bool.false_eq_true, if_false]
        omega
      · have hq2 : needs_value_node sn.value = false := by
          simpa using hq
        obtain ⟨ih1, ih2⟩ := ih bag
        rw [snak_refs_cons]
        simp only [write_reference_snaks, hq2, if_false, ite_false, Bool.false_eq_true,
          List.nil_append, String.append_assoc]
        refine ⟨ih1, ?_⟩
        rw [vnc_append, hline, ih2]
        omega

theorem reference_refs_cons (md5hex : String → String) (r : Reference)
    (rest : List Reference) :
    reference_refs md5hex (r :: rest)
      = snak_refs md5hex r.snaks ++ reference_refs md5hex rest := by
  simp [reference_refs]

theorem write_references_spec (md5hex : String → String) (stmt_uri : String)
    (registry : PropertyRegistry) (bag : HashDedupeBag) (refs : List Reference)
    (hsu : ∀ s, chunk_is_value_node_header (stmt_uri ++ s) = false)
    (out : List String) (bagOut : Option HashDedupeBag)
    (hok : write_references md5hex stmt_uri registry (some bag) refs = .ok (out, bagOut)) :
    bagOut = some (emit_pass bag (reference_refs md5hex refs)).2
    ∧ value_node_header_count out = (emit_pass bag (reference_refs md5hex refs)).1 := by
  induction refs generalizing bag out bagOut with
  | nil =>
      simp only [write_references, Except.ok.injEq, Prod.mk.injEq] at hok
      obtain ⟨h1, h2⟩ := hok
      subst h1
      subst h2
      simp [reference_refs, emit_pass, value_node_header_count]
  | cons r rest ih =>
      by_cases hh : r.hash = ""
      · simp [write_references, hh] at hok
      · obtain ⟨hs1, hs2⟩ :=
          write_reference_snaks_spec md5hex ("wdref:" ++ r.hash) registry bag r.snaks
            (fun s => by rw [String.append_assoc]; exact not_header_wdref _)
        rw [reference_refs_cons]
        simp only [write_references, hh, if_false, ite_false, Bool.false_eq_true] at hok
        rw [hs1] at hok
        rcases hrec : write_references md5hex stmt_uri registry
            (some (emit_pass bag (snak_refs md5hex r.snaks)).2) rest with e2 | p2
        · rw [hrec] at hok
          simp at hok
        · rw [hrec] at hok
          obtain ⟨o2, b2⟩ := p2
          simp only [Except.ok.injEq, Prod.mk.injEq] at hok
          obtain ⟨h1, h2⟩ := hok
          subst h2
          obtain ⟨ihb, ihc⟩ := ih (emit_pass bag (snak_refs md5hex r.snaks)).2 o2 b2 hrec
          rw [emit_pass_append]
          refine ⟨by rw [ihb], ?_⟩
          rw [← h1]
          simp only [List.cons_append, List.nil_append]
          rw [vnc_cons, vnc_append, hs2, ihc]
          simp only [String.append_assoc, hsu, Bool.false_eq_true, if_false]
          omega

theorem write_statement_spec (md5hex : String → String) (e : String)
    (stmt : Statement) (shape : PropertyShape) (registry : PropertyRegistry)
    (bag : HashDedupeBag) (out : List String) (bagOut : Option HashDedupeBag)
    (hok : write_statement md5hex e stmt shape registry (some bag) = .ok (out, bagOut)) :
    bagOut = some (emit_pass bag (statement_refs md5hex stmt)).2
    ∧ value_node_header_count out = (emit_pass bag (statement_refs md5hex stmt)).1 := by
  have hsu : ∀ s, chunk_is_value_node_header (statement_prefixed stmt.statement_id ++ s) = false := by
    intro s
    rw [statement_prefixed, String.append_assoc]
    exact not_header_wds _
  have hlink : value_node_header_count
      [entity_prefixed e ++ " p:" ++ stmt.property ++ " "
        ++ statement_prefixed stmt.statement_id ++ " .\n"] = 0 := by
    simp only [value_node_header_count, List.countP_cons, List.countP_nil,
      entity_prefixed, String.append_assoc]
    rw [not_header_wd]
    rfl
  have htype : value_node_header_count
      (if stmt.rank = "normal" then
        [statement_prefixed stmt.statement_id ++ " a wikibase:Statement, wikibase:BestRank .\n",
         entity_prefixed e ++ " wdt:" ++ stmt.property ++ " " ++ format_value stmt.value ++ " .\n"]
       else [statement_prefixed stmt.statement_id ++ " a wikibase:Statement .\n"]) = 0 := by
    split <;>
      simp only [value_node_header_count, List.countP_cons, List.countP_nil,
        entity_prefixed, statement_prefixed, String.append_assoc] <;>
      rw [not_header_wds] <;>
      first
        | rfl
        | (rw [not_header_wd]; rfl)
  have hrank : ∀ t u : String, value_node_header_count
      [statement_prefixed stmt.statement_id ++ " wikibase:rank wikibase:" ++ t ++ u] = 0 := by
    intro t u
    simp only [value_node_header_count, List.countP_cons, List.countP_nil,
      String.append_assoc]
    rw [hsu]
    rfl
  have hval0 : value_node_header_count
      [statement_prefixed stmt.statement_id ++ " " ++ shape.predicates.statement ++ " "
        ++ format_value stmt.value ++ " .\n"] = 0 := by
    simp only [value_node_header_count, List.countP_cons, List.countP_nil,
      String.append_assoc]
    rw [hsu]
    rfl
  by_cases hv : needs_value_node stmt.value
  · obtain ⟨hb, hc⟩ :=
      write_value_node_spec (generate_value_node_uri md5hex stmt.value) stmt.value bag hv
    obtain ⟨hq1, hq2⟩ :=
      write_qualifiers_spec md5hex (statement_prefixed stmt.statement_id) shape
        (already_seen bag (generate_value_node_uri md5hex stmt.value) "wdv").2
        stmt.qualifiers hsu
    simp only [write_statement, hv, if_true, ite_true, hb, hq1] at hok
    rcases href : write_references md5hex (statement_prefixed stmt.statement_id) registry
        (some (emit_pass
          (already_seen bag (generate_value_node_uri md5hex stmt.value) "wdv").2
          (qualifier_refs md5hex stmt.qualifiers)).2) stmt.references with err | p
    · rw [href] at hok
      simp at hok
    · rw [href] at hok
      obtain ⟨refC, bagR⟩ := p
      simp only [Except.ok.injEq, Prod.mk.injEq] at hok
      obtain ⟨h1, h2⟩ := hok
      subst h2
      obtain ⟨hr1, hr2⟩ :=
        write_references_spec md5hex (statement_prefixed stmt.statement_id) registry
          (emit_pass
            (already_seen bag (generate_value_node_uri md5hex stmt.value) "wdv").2
            (qualifier_refs md5hex stmt.qualifiers)).2
          stmt.references hsu refC bagR href
      have hrefs : statement_refs md5hex stmt
          = generate_value_node_uri md5hex stmt.value
              :: (qualifier_refs md5hex stmt.qualifiers ++ reference_refs md5hex stmt.references) := by
        simp [statement_refs, hv]
      rw [hrefs]
      simp only [emit_pass]
      rw [emit_pass_append]
      constructor
      · rw [hr1]
      · rw [← h1]
        rw [vnc_append, vnc_append, vnc_append, vnc_append, vnc_append]
        rw [hlink, htype, hrank, hq2, hr2]
        have hvline : value_node_header_count
            [statement_prefixed stmt.statement_id ++ " "
              ++ pyStr shape.predicates.value_node ++ " wdv:"
              ++ generate_value_node_uri md5hex stmt.value ++ " .\n"] = 0 := by
          simp only [value_node_header_count, List.countP_cons, List.countP_nil,
            String.append_assoc]
          rw [hsu]
          rfl
        rw [vnc_append, hvline, hc]
        omega
  · have hv2 : needs_value_node stmt.value = false := by
      simpa using hv
    obtain ⟨hq1, hq2⟩ :=
      write_qualifiers_spec md5hex (statement_prefixed stmt.statement_id) shape
        bag stmt.qualifiers hsu
    simp only [write_statement, hv2, if_false, ite_false, Bool.false_eq_true, hq1] at hok
    rcases href : write_references md5hex (statement_prefixed stmt.statement_id) registry
        (some (emit_pass bag (qualifier_refs md5hex stmt.qualifiers)).2)
        stmt.references with err | p
    · rw [href] at hok
      simp at hok
    · rw [href] at hok
      obtain ⟨refC, bagR⟩ := p
      simp only [Except.ok.injEq, Prod.mk.injEq] at hok
      obtain ⟨h1, h2⟩ := hok
      subst h2
      obtain ⟨hr1, hr2⟩ :=
        write_references_spec md5hex (statement_prefixed stmt.statement_id) registry
          (emit_pass bag (qualifier_refs md5hex stmt.qualifiers)).2
          stmt.references hsu refC bagR href
      have hrefs : statement_refs md5hex stmt
          = qualifier_refs md5hex stmt.qualifiers ++ reference_refs md5hex stmt.references := by
        simp [statement_refs, hv2]
      rw [hrefs]
      rw [emit_pass_append]
      constructor
      · rw [hr1]
      · rw [← h1]
        rw [vnc_append, vnc_append, vnc_append, vnc_append, vnc_append]
        rw [hlink, htype, hval0, hrank, hq2, hr2]
        omega

theorem write_statements_section_spec (md5hex : String → String)
    (registry : PropertyRegistry) (e : String) :
    ∀ (stmts : List Statement) (bag : HashDedupeBag) (out : List String)
      (bagOut : Option HashDedupeBag),
    write_statements_section md5hex registry e (some bag) stmts = .ok (out, bagOut) →
    bagOut = some (emit_pass bag ((stmts.map (statement_refs md5hex)).flatten)).2
    ∧ value_node_header_count out
        = (emit_pass bag ((stmts.map (statement_refs md5hex)).flatten)).1 := by
  intro stmts
  induction stmts with
  | nil =>
    intro bag out bagOut hok
    simp only [write_statements_section, Except.ok.injEq, Prod.mk.injEq] at hok
    obtain ⟨h1, h2⟩ := hok
    subst h1
    subst h2
    simp [emit_pass, value_node_header_count]
  | cons stmt rest ih =>
    intro bag out bagOut hok
    simp only [write_statements_section] at hok
    rcases h1 : write_statement md5hex e stmt (PropertyRegistry.shape registry stmt.property)
        registry (some bag) with err | p
    · rw [h1] at hok
      simp at hok
    · obtain ⟨out1, bag2⟩ := p
      rw [h1] at hok
      obtain ⟨hs1, hs2⟩ :=
        write_statement_spec md5hex e stmt (PropertyRegistry.shape registry stmt.property)
          registry bag out1 bag2 h1
      subst hs1
      dsimp only at hok
      rcases h2 : write_statements_section md5hex registry e
          (some (emit_pass bag (statement_refs md5hex stmt)).2) rest with err | q
      · rw [h2] at hok
        simp at hok
      · obtain ⟨out2, bag3⟩ := q
        rw [h2] at hok
        dsimp only at hok
        simp only [Except.ok.injEq, Prod.mk.injEq] at hok
        obtain ⟨hq1, hq2⟩ := hok
        subst hq2
        obtain ⟨ih1, ih2⟩ :=
          ih (emit_pass bag (statement_refs md5hex stmt)).2 out2 bag3 h2
        simp only [List.map_cons, List.flatten_cons]
        rw [emit_pass_append]
        refine ⟨by rw [ih1], ?_⟩
        rw [← hq1, vnc_append, hs2, ih2]

theorem vnc_eq_zero (l : List String)
    (h : ∀ x ∈ l, chunk_is_value_node_header x = false) :
    value_node_header_count l = 0 := by
  rw [value_node_header_count, List.countP_eq_zero]
  intro x hx
  simp [h x hx]

theorem not_header_head (l : String) (c : Char) (hd : l.data.head? = some c)
    (hc : ("w" == String.mk [c]) = false) : chunk_is_value_node_header l = false := by
  cases hl : l.data with
  | nil => rw [hl] at hd; simp at hd
  | cons a rest =>
    rw [hl] at hd
    simp only [List.head?_cons, Option.some.injEq] at hd
    subst hd
    have hcc : ('w' == a) = false := by
      by_cases h : 'w' = a
      · subst h
        simp at hc
      · simp [h]
    have hcc2 : 'w' ≠ a := by
      intro h
      subst h
      simp at hcc
    simp [chunk_is_value_node_header, hl, List.isPrefixOf, hcc, hcc2]

theorem vnc_turtle_prefixes : value_node_header_count [TURTLE_PREFIXES] = 0 := by
  apply vnc_eq_zero
  intro x hx
  simp only [List.mem_singleton] at hx
  subst hx
  exact not_header_head _ (Char.ofNat 64) rfl (by decide)

theorem vnc_entity_metadata (e : Entity) :
    value_node_header_count (write_entity_metadata_section e) = 0 := by
  rw [write_entity_metadata_section]
  rw [vnc_append, vnc_append, vnc_append, vnc_append, vnc_append]
  have h1 : value_node_header_count (write_entity_type e.id) = 0 := by
    apply vnc_eq_zero
    intro x hx
    simp only [write_entity_type, List.mem_singleton] at hx
    subst hx
    rw [entity_prefixed, String.append_assoc]
    exact not_header_wd _
  have h2 : value_node_header_count (write_dataset_triples e.id) = 0 := by
    apply vnc_eq_zero
    intro x hx
    simp only [write_dataset_triples, List.mem_cons, List.mem_singleton,
      List.not_mem_nil, or_false] at hx
    rcases hx with rfl | rfl | rfl <;>
      (rw [data_prefixed, String.append_assoc]; exact not_header_data _)
  have h3 : value_node_header_count
      ((e.labels.map (fun p => write_label e.id p.1 p.2)).flatten) = 0 := by
    apply vnc_flatten_zero
    intro p _
    apply vnc_eq_zero
    intro x hx
    simp only [write_label, List.mem_singleton] at hx
    subst hx
    rw [entity_prefixed]
    simp only [String.append_assoc]
    exact not_header_wd _
  have h4 : value_node_header_count
      ((e.descriptions.map (fun p => write_description e.id p.1 p.2)).flatten) = 0 := by
    apply vnc_flatten_zero
    intro p _
    apply vnc_eq_zero
    intro x hx
    simp only [write_description, List.mem_singleton] at hx
    subst hx
    rw [entity_prefixed]
    simp only [String.append_assoc]
    exact not_header_wd _
  have h5 : value_node_header_count
      ((e.aliases.map (fun p => (p.2.map (fun a => write_alias e.id p.1 a)).flatten)).flatten) = 0 := by
    apply vnc_flatten_zero
    intro p _
    apply vnc_flatten_zero
    intro a _
    apply vnc_eq_zero
    intro x hx
    simp only [write_alias, List.mem_singleton] at hx
    subst hx
    rw [entity_prefixed]
    simp only [String.append_assoc]
    exact not_header_wd _
  have h6 : value_node_header_count
      ((e.sitelinks.map (fun p => write_sitelink e.id p.2)).flatten) = 0 := by
    apply vnc_flatten_zero
    intro p _
    apply vnc_eq_zero
    intro x hx
    simp only [write_sitelink, List.mem_singleton] at hx
    subst hx
    rw [entity_prefixed]
    simp only [String.append_assoc]
    exact not_header_wd _
  omega

theorem vnc_redirects (conv : EntityConverter)
    (set_order : List String → List String) (e : Entity) :
    value_node_header_count (write_redirects_section conv set_order e) = 0 := by
  rw [write_redirects_section]
  apply vnc_flatten_zero
  intro rid _
  apply vnc_eq_zero
  intro x hx
  simp only [write_redirect, List.mem_singleton] at hx
  subst hx
  rw [entity_prefixed]
  simp only [String.append_assoc]
  exact not_header_wd _

theorem vnc_referenced (conv : EntityConverter) (e : Entity) :
    value_node_header_count (write_referenced_entity_metadata conv e) = 0 := by
  rw [write_referenced_entity_metadata]
  cases conv.entity_metadata_dir with
  | none => simp [value_node_header_count]
  | some load =>
    apply vnc_flatten_zero
    intro rid _
    cases load rid with
    | none => simp [value_node_header_count]
    | some ref_entity =>
      rw [vnc_append, vnc_append]
      have h1 : value_node_header_count (write_entity_type ref_entity.id) = 0 := by
        apply vnc_eq_zero
        intro x hx
        simp only [write_entity_type, List.mem_singleton] at hx
        subst hx
        rw [entity_prefixed, String.append_assoc]
        exact not_header_wd _
      have h2 : value_node_header_count
          ((ref_entity.labels.map (fun p =>
            if p.2 ≠ "" then write_label ref_entity.id p.1 p.2 else [])).flatten) = 0 := by
        apply vnc_flatten_zero
        intro p _
        split
        · apply vnc_eq_zero
          intro x hx
          simp only [write_label, List.mem_singleton] at hx
          subst hx
          rw [entity_prefixed]
          simp only [String.append_assoc]
          exact not_header_wd _
        · simp [value_node_header_count]
      have h3 : value_node_header_count
          ((ref_entity.descriptions.map (fun p =>
            if p.2 ≠ "" then write_description ref_entity.id p.1 p.2 else [])).flatten) = 0 := by
        apply vnc_flatten_zero
        intro p _
        split
        · apply vnc_eq_zero
          intro x hx
          simp only [write_description, List.mem_singleton] at hx
          subst hx
          rw [entity_prefixed]
          simp only [String.append_assoc]
          exact not_header_wd _
        · simp [value_node_header_count]
      omega

theorem mem_ite_or {α : Type} {c : Prop} [Decidable c] {x : α} {l1 l2 : List α}
    (h : x ∈ if c then l1 else l2) : x ∈ l1 ∨ x ∈ l2 := by
  split at h
  · exact Or.inl h
  · exact Or.inr h

theorem vnc_property_metadata (reg : PropertyRegistry)
    (md5hex : String → String) (e : Entity) :
    value_node_header_count (write_property_metadata_section reg md5hex e) = 0 := by
  rw [write_property_metadata_section]
  apply vnc_flatten_zero
  intro pid _
  apply vnc_eq_zero
  intro x hx
  simp only [write_property_metadata, write_property, write_novalue_class,
    List.mem_append, List.mem_flatten, List.mem_map] at hx
  rcases hx with
    ((((((((((hA1 | hA2) | hA3) | hA4) | hA5) | hA6) | hA7) | hA8) | hA9) | hA10)
      | ((((hB1 | hB2) | hB3) | hB4) | hB5)) | hC
  · simp only [List.mem_singleton] at hA1
    subst hA1
    simp only [String.append_assoc]
    exact not_header_wd _
  · obtain ⟨l, ⟨p, _, hp⟩, hxl⟩ := hA2
    subst hp
    simp only [List.mem_cons, List.mem_singleton, List.not_mem_nil, or_false] at hxl
    rcases hxl with rfl | rfl | rfl <;>
      exact not_header_head _ (Char.ofNat 9) rfl (by decide)
  · obtain ⟨l, ⟨p, _, hp⟩, hxl⟩ := hA3
    subst hp
    simp only [List.mem_singleton] at hxl
    subst hxl
    exact not_header_head _ (Char.ofNat 9) rfl (by decide)
  · simp only [List.mem_cons, List.mem_singleton, List.not_mem_nil, or_false] at hA4
    rcases hA4 with rfl | rfl | rfl | rfl <;>
      exact not_header_head _ (Char.ofNat 9) rfl (by decide)
  · rcases mem_ite_or hA5 with h | h
    · simp only [List.mem_cons, List.mem_singleton, List.not_mem_nil, or_false] at h
      rcases h with rfl | rfl | rfl <;>
        exact not_header_head _ (Char.ofNat 9) rfl (by decide)
    · exact absurd h (List.not_mem_nil x)
  · rcases mem_ite_or hA6 with h | h
    · simp only [List.mem_singleton] at h
      subst h
      exact not_header_head _ (Char.ofNat 9) rfl (by decide)
    · exact absurd h (List.not_mem_nil x)
  · rcases mem_ite_or hA7 with h | h
    · simp only [List.mem_singleton] at h
      subst h
      exact not_header_head _ (Char.ofNat 9) rfl (by decide)
    · exact absurd h (List.not_mem_nil x)
  · rcases mem_ite_or hA8 with h | h
    · simp only [List.mem_singleton] at h
      subst h
      exact not_header_head _ (Char.ofNat 9) rfl (by decide)
    · exact absurd h (List.not_mem_nil x)
  · rcases mem_ite_or hA9 with h | h
    · simp only [List.mem_singleton] at h
      subst h
      exact not_header_head _ (Char.ofNat 9) rfl (by decide)
    · exact absurd h (List.not_mem_nil x)
  · simp only [List.mem_cons, List.mem_singleton, List.not_mem_nil, or_false] at hA10
    rcases hA10 with rfl | rfl | rfl <;>
      exact not_header_head _ (Char.ofNat 9) rfl (by decide)
  · simp only [List.mem_cons, List.mem_singleton, List.not_mem_nil, or_false] at hB1
    rcases hB1 with rfl | rfl | rfl | rfl | rfl | rfl | rfl | rfl
    · exact not_header_head _ (Char.ofNat 112) rfl (by decide)
    · exact not_header_head _ (Char.ofNat 112) rfl (by decide)
    · exact not_header_head _ (Char.ofNat 112) rfl (by decide)
    · exact not_header_head _ (Char.ofNat 112) rfl (by decide)
    · simp only [String.append_assoc]
      exact not_header_wdt _
    · exact not_header_head _ (Char.ofNat 112) rfl (by decide)
    · exact not_header_head _ (Char.ofNat 112) rfl (by decide)
    · exact not_header_head _ (Char.ofNat 112) rfl (by decide)
  · rcases mem_ite_or hB2 with h | h
    · simp only [List.mem_singleton] at h
      subst h
      exact not_header_head _ (Char.ofNat 112) rfl (by decide)
    · exact absurd h (List.not_mem_nil x)
  · rcases mem_ite_or hB3 with h | h
    · simp only [List.mem_singleton] at h
      subst h
      exact not_header_head _ (Char.ofNat 112) rfl (by decide)
    · exact absurd h (List.not_mem_nil x)
  · rcases mem_ite_or hB4 with h | h
    · simp only [List.mem_singleton] at h
      subst h
      exact not_header_head _ (Char.ofNat 112) rfl (by decide)
    · exact absurd h (List.not_mem_nil x)
  · rcases mem_ite_or hB5 with h | h
    · simp only [List.mem_singleton] at h
      subst h
      simp only [String.append_assoc]
      exact not_header_wdtn _
    · exact absurd h (List.not_mem_nil x)
  · simp only [List.mem_cons, List.mem_singleton, List.not_mem_nil, or_false] at hC
    rcases hC with rfl | rfl | rfl | rfl | rfl | rfl
    · simp only [String.append_assoc]
      exact not_header_wdno _
    · exact not_header_head _ (Char.ofNat 9) rfl (by decide)
    · exact not_header_head _ (Char.ofNat 10) rfl (by decide)
    · simp only [String.append_assoc]
      exact not_header_blank _
    · exact not_header_head _ (Char.ofNat 9) rfl (by decide)
    · exact not_header_head _ (Char.ofNat 9) rfl (by decide)

theorem convert_header_count (conv : EntityConverter) (md5hex : String → String)
    (set_order : List String → List String) (e : Entity) (chunks : List String)
    (hdedup : conv.enable_deduplication = true)
    (hok : convert_to_turtle conv md5hex set_order e = .ok chunks) :
    value_node_header_count chunks
      = (emit_pass HashDedupeBag.new (value_node_refs md5hex e)).1 := by
  simp only [convert_to_turtle, hdedup, eq_self_iff_true, ite_true] at hok
  rcases hs : write_statements_section md5hex conv.properties e.id
      (some HashDedupeBag.new) e.statements with err | p
  · rw [hs] at hok
    simp at hok
  · obtain ⟨stmt_chunks, bag⟩ := p
    rw [hs] at hok
    dsimp only at hok
    simp only [Except.ok.injEq] at hok
    subst hok
    obtain ⟨_, h2⟩ := write_statements_section_spec md5hex conv.properties e.id
      e.statements HashDedupeBag.new stmt_chunks bag hs
    rw [vnc_append, vnc_append, vnc_append, vnc_append, vnc_append]
    rw [vnc_turtle_prefixes, vnc_entity_metadata, vnc_redirects, vnc_referenced,
      vnc_property_metadata, h2, value_node_refs_eq]
    omega

theorem wdv_key_inj (x y : String) (h : "wdv" ++ x = "wdv" ++ y) : x = y := by
  have hd : ("wdv" ++ x).data = ("wdv" ++ y).data := by rw [h]
  have h1 : ("wdv" ++ x).data = 'w' :: 'd' :: 'v' :: x.data := rfl
  have h2 : ("wdv" ++ y).data = 'w' :: 'd' :: 'v' :: y.data := rfl
  rw [h1, h2] at hd
  simp only [List.cons.injEq, true_and] at hd
  cases x
  cases y
  exact congrArg String.mk hd

theorem emit_pass_distinct (cut : Nat) (all : List String)
    (hnc : ∀ a ∈ all, ∀ b ∈ all, a.take cut = b.take cut → a = b) :
    ∀ (refs : List String), (∀ h ∈ refs, h ∈ all) →
    ∀ (bag : HashDedupeBag) (sn : List String),
      bag.cutoff = cut →
      (∀ h ∈ all, (alist_get bag.bag ("wdv" ++ h.take cut) = some h ↔ h ∈ sn)) →
      (emit_pass bag refs).1 = (refs.toFinset \ sn.toFinset).card := by
  intro refs
  induction refs with
  | nil =>
    intro _ bag sn _ _
    simp [emit_pass]
  | cons h rest ih =>
    intro hsub bag sn hcut hinv
    have hall : h ∈ all := hsub h (List.mem_cons_self h rest)
    have hsub2 : ∀ g ∈ rest, g ∈ all := fun g hg => hsub g (List.mem_cons_of_mem h hg)
    by_cases hseen : h ∈ sn
    · have hget : alist_get bag.bag ("wdv" ++ h.take cut) = some h :=
        (hinv h hall).mpr hseen
      have ha : already_seen bag h "wdv" = (true, bag) := by
        rw [already_seen, hcut]
        simp [hget]
      simp only [emit_pass, ha]
      rw [ih hsub2 bag sn hcut hinv]
      have hfin : h ∈ sn.toFinset := List.mem_toFinset.mpr hseen
      rw [List.toFinset_cons, Finset.insert_sdiff_of_mem _ hfin]
      simp
    · have hgetne : alist_get bag.bag ("wdv" ++ h.take cut) ≠ some h :=
        fun hc => hseen ((hinv h hall).mp hc)
      have ha : already_seen bag h "wdv"
          = (false, { bag with bag := alist_put bag.bag ("wdv" ++ h.take cut) h }) := by
        rw [already_seen, hcut]
        rcases hg : alist_get bag.bag ("wdv" ++ h.take cut) with _ | stored
        · simp [hg]
        · have hne : ¬ stored = h := fun he => hgetne (by rw [hg, he])
          simp [hg, hne]
      have hinv2 : ∀ g ∈ all,
          (alist_get (alist_put bag.bag ("wdv" ++ h.take cut) h) ("wdv" ++ g.take cut)
              = some g ↔ g ∈ h :: sn) := by
        intro g hg
        by_cases hgh : g = h
        · subst hgh
          rw [alist_get_put_self]
          simp
        · have hkey : ("wdv" ++ h.take cut) ≠ ("wdv" ++ g.take cut) := by
            intro hk
            exact hgh (hnc g hg h hall (wdv_key_inj _ _ hk.symm))
          rw [alist_get_put_ne _ _ _ _ hkey, hinv g hg]
          simp [List.mem_cons, hgh]
      simp only [emit_pass, ha]
      rw [ih hsub2 { bag with bag := alist_put bag.bag ("wdv" ++ h.take cut) h }
        (h :: sn) hcut hinv2]
      have hnf : h ∉ sn.toFinset := fun hc => hseen (List.mem_toFinset.mp hc)
      rw [List.toFinset_cons, List.toFinset_cons, Finset.sdiff_insert,
        Finset.insert_sdiff_of_not_mem _ hnf]
      have hins : insert h (rest.toFinset \ sn.toFinset)
          = insert h ((rest.toFinset \ sn.toFinset).erase h) := by
        ext y
        simp only [Finset.mem_insert, Finset.mem_erase]
        constructor
        · intro hy
          rcases hy with rfl | hy
          · exact Or.inl rfl
          · by_cases hyh : y = h
            · exact Or.inl hyh
            · exact Or.inr ⟨hyh, hy⟩
        · intro hy
          rcases hy with rfl | ⟨_, hy⟩
          · exact Or.inl rfl
          · exact Or.inr hy
      rw [hins, Finset.card_insert_of_not_mem (Finset.not_mem_erase h _)]
      simp only [Bool.false_eq_true, if_false]
      omega

theorem emit_pass_fresh (refs : List String)
    (hnc : ∀ a ∈ refs, ∀ b ∈ refs, a.take 5 = b.take 5 → a = b) :
    (emit_pass HashDedupeBag.new refs).1 = refs.dedup.length := by
  have hmain := emit_pass_distinct 5 refs hnc refs (fun _ hh => hh)
    HashDedupeBag.new [] rfl ?_
  · rw [hmain]
    simp [List.card_toFinset]
  · intro g _
    constructor
    · intro hc
      simp [HashDedupeBag.new, alist_get] at hc
    · intro hc
      simp at hc

/-- Fixture: an md5 stand-in whose outputs all share the first five hex
characters, producing a truncated-key collision in the dedup bag. -/
def c8c_md5 : String → String := fun s => "00000" ++ s

/-- Fixture: a first time value. -/
def c8c_time1 : RdfValue := .time "+2" 0 0 0 11 "c"

/-- Fixture: a second, distinct time value. -/
def c8c_time2 : RdfValue := .time "+3" 0 0 0 11 "c"

/-- Fixture: an entity whose statements reference value nodes with hashes
h1, h2, h1 where h1 and h2 share their first five characters. -/
def c8c_entity : Entity :=
  { id := "Q8", labels := [], descriptions := [], aliases := [],
    statements :=
      [{ property := "P1", value := c8c_time1, rank := "normal", qualifiers := [],
         references := [], statement_id := "Q8-s1" },
       { property := "P1", value := c8c_time2, rank := "normal", qualifiers := [],
         references := [], statement_id := "Q8-s2" },
       { property := "P1", value := c8c_time1, rank := "normal", qualifiers := [],
         references := [], statement_id := "Q8-s3" }],
    sitelinks := [] }

/-- Fixture: a converter with an empty registry and deduplication on. -/
def c8c_conv : EntityConverter := { properties := PropertyRegistry.mk [] }

/-- C8 counterexample: with a five-hex-prefix collision between two distinct
value hashes, the lossy bag forgets the first hash when the second is stored,
so the first value's block is emitted again on its next reference: the output
holds 3 value-node block headers while only 2 distinct hashes are referenced,
refuting the claimed equality. -/
theorem value_node_block_collision_counterexample :
    (convert_to_turtle c8c_conv c8c_md5 (fun xs => xs) c8c_entity).map
        value_node_header_count = .ok 3
    ∧ (value_node_refs c8c_md5 c8c_entity).dedup.length = 2 := by
  constructor
  · rfl
  · rfl

/-- C8 (amended): when deduplication is enabled and no two distinct
referenced value hashes share their first five characters (the bag's
truncation cutoff), the number of `wdv:` block header lines in the Turtle
output equals the number of distinct value-node hashes referenced by the
entity's statements, qualifiers and reference snaks. -/
theorem value_node_blocks_deduplicated (conv : EntityConverter)
    (md5hex : String → String) (set_order : List String → List String)
    (e : Entity) (chunks : List String)
    (hdedup : conv.enable_deduplication = true)
    (hnc : ∀ a ∈ value_node_refs md5hex e, ∀ b ∈ value_node_refs md5hex e,
      a.take 5 = b.take 5 → a = b)
    (hok : convert_to_turtle conv md5hex set_order e = .ok chunks) :
    value_node_header_count chunks = (value_node_refs md5hex e).dedup.length := by
  rw [convert_header_count conv md5hex set_order e chunks hdedup hok]
  exact emit_pass_fresh _ hnc

/-- Fixture: the identity md5 stand-in (collision-free on these inputs). -/
def c8w_md5 : String → String := fun s => s

/-- Fixture: an entity referencing two distinct value nodes, the first one
twice. -/
def c8w_entity : Entity :=
  { id := "Q9", labels := [], descriptions := [], aliases := [],
    statements :=
      [{ property := "P1", value := c8c_time1, rank := "normal", qualifiers := [],
         references := [], statement_id := "Q9-s1" },
       { property := "P1", value := c8c_time2, rank := "normal", qualifiers := [],
         references := [], statement_id := "Q9-s2" },
       { property := "P1", value := c8c_time1, rank := "normal", qualifiers := [],
         references := [], statement_id := "Q9-s3" }],
    sitelinks := [] }

/-- Fixture: a converter with an empty registry and deduplication on. -/
def c8w_conv : EntityConverter := { properties := PropertyRegistry.mk [] }

/-- Fixture: the successful output chunks for the witness input. -/
def c8w_chunks : List String :=
  match convert_to_turtle c8w_conv c8w_md5 (fun xs => xs) c8w_entity with
  | .ok c => c
  | .error _ => []

theorem value_node_blocks_deduplicated_witness :
    value_node_header_count c8w_chunks
      = (value_node_refs c8w_md5 c8w_entity).dedup.length :=
  value_node_blocks_deduplicated c8w_conv c8w_md5 (fun xs => xs) c8w_entity
    c8w_chunks rfl (by decide) rfl

end WB
